import Mathlib

/-!
Shallow embedding of the `lf2_parse` object-data parser core.

The Rust crate consumes a syntax tree produced by a pest grammar (the lexical
grammar is an external collaborator): every node is a `Pair` carrying its rule
kind, its source text and its child nodes.  The semantic parser walks that tree
with a generic driver (`ObjectDataParser::parse_as_type`) and builds the typed
data model (`ObjectData`, `Header`, `Frames`, `Frame`, frame elements).

This file translates the data model and the tree-walking parser functions from
the Rust source into executable Lean definitions and proves properties of the
parsing pipeline.  Machine integers are modelled as `Nat`/`Int` with the Rust
parse-time range checks made explicit; fallible code returns `Except`.
-/

namespace Lf2

/-- Node kinds of the object-data grammar (the pest-generated `Rule` enum).
Only the constructors referenced by the semantic parser are listed. -/
inductive Rule where
  | Object | Header | HeaderTag
  | TagName | TagHead | TagSmall | SpriteFile | TagFileValue | TagRow | TagCol
  | TagWalkingFrameRate | TagWalkingSpeed | TagWalkingSpeedZ
  | TagRunningFrameRate | TagRunningSpeed | TagRunningSpeedZ
  | TagHeavyWalkingSpeed | TagHeavyWalkingSpeedZ
  | TagHeavyRunningSpeed | TagHeavyRunningSpeedZ
  | TagJumpHeight | TagJumpDistance | TagJumpDistanceZ
  | TagDashHeight | TagDashDistance | TagDashDistanceZ
  | TagRowingHeight | TagRowingDistance
  | Frames | Frame | FrameNumber | FrameName | FrameData | FrameTag
  | TagCenterX | TagCenterY | TagDVx | TagDVy | TagDVz
  | TagHitA | TagHitD | TagHitDa | TagHitDj | TagHitFa | TagHitFj
  | TagHitJ | TagHitJa | TagHitUa | TagHitUj
  | TagMp | TagNext | TagPic | TagSound | TagState | TagWait
  | Element | Bdy | BdyTag | BPoint | BPointTag | CPoint | CPointTag
  | Itr | ItrTag | OPoint | OPointTag | WPoint | WPointTag
  | TagKind | TagX | TagY | TagW | TagH | TagZWidth
  | TagARest | TagVRest | TagFall | TagBDefend | TagInjury | TagEffect
  | TagCatchingAct | TagCaughtAct
  | TagCover | TagDecrease | TagDirControl | TagHurtable
  | TagAAction | TagJAction | TagVAction | TagTAction
  | TagThrowInjury | TagThrowVx | TagThrowVy | TagThrowVz
  | TagFrontHurtAct | TagBackHurtAct
  | TagWeaponAct | TagAttacking | TagAction | TagOid | TagFacing
  deriving DecidableEq, Repr

/-- A positioned syntax node produced by the external lexical grammar: rule
kind, matched source text (`Pair::as_str`) and the inner pairs
(`Pair::into_inner`).  Source positions are not modelled; errors carry the
offending `Pair` itself, as the Rust error type does. -/
inductive Pair where
  | mk (rule : Rule) (text : String) (children : List Pair)

/-- The node's grammar rule (`Pair::as_rule`). -/
def Pair.rule : Pair → Rule
  | .mk r _ _ => r

/-- The node's matched source text (`Pair::as_str`). -/
def Pair.text : Pair → String
  | .mk _ t _ => t

/-- The node's inner pairs (`Pair::into_inner`). -/
def Pair.children : Pair → List Pair
  | .mk _ _ c => c

/-! ## Rust integer parsing

The crate parses field values with `str::parse` into `u32` / `i32` / `i64` /
`isize` / `usize`.  Rust's integer `FromStr` accepts an optional sign (`-`
only for signed targets), then one or more ASCII decimal digits, and fails on
overflow of the target type.  The target is modelled by its range bounds;
`isize`/`usize` are the 64-bit variants. -/

/-- The numeric value of a list of ASCII decimal digits; `none` if the list is
empty or contains a non-digit. -/
def digitsVal? (cs : List Char) : Option Nat :=
  match cs with
  | [] => none
  | _ =>
    cs.foldl
      (fun acc c =>
        acc.bind fun n => if c.isDigit then some (n * 10 + (c.toNat - 48)) else none)
      (some 0)

/-- Rust `str::parse` for an unsigned integer type with maximum value `max`:
an optional leading `+`, then digits; the `-` sign is rejected. -/
def parseUnsigned (max : Nat) (s : String) : Option Nat :=
  let digits :=
    match s.data with
    | '+' :: cs => digitsVal? cs
    | cs => digitsVal? cs
  digits.bind fun n => if n ≤ max then some n else none

/-- Rust `str::parse` for a signed integer type with range `[min, max]`:
an optional leading `+` or `-`, then digits, with an overflow check. -/
def parseSigned (min max : Int) (s : String) : Option Int :=
  let signed : Option Int :=
    match s.data with
    | '+' :: cs => (digitsVal? cs).map fun n => (n : Int)
    | '-' :: cs => (digitsVal? cs).map fun n => -(n : Int)
    | cs => (digitsVal? cs).map fun n => (n : Int)
  signed.bind fun v => if min ≤ v ∧ v ≤ max then some v else none

/-- Rust `u32::MAX`. -/
def u32Max : Nat := 2 ^ 32 - 1

/-- Rust `usize::MAX` (64-bit). -/
def usizeMax : Nat := 2 ^ 64 - 1

/-- Rust `i32` bounds. -/
def i32Min : Int := -(2 ^ 31)

/-- Rust `i32::MAX`. -/
def i32Max : Int := 2 ^ 31 - 1

/-- Rust `i64`/`isize` bounds (64-bit). -/
def i64Min : Int := -(2 ^ 63)

/-- Rust `i64::MAX`. -/
def i64Max : Int := 2 ^ 63 - 1

/-- Rust `"…".parse::<u32>()`. -/
def parseU32 (s : String) : Option Nat := parseUnsigned u32Max s

/-- Rust `"…".parse::<usize>()`. -/
def parseUsize (s : String) : Option Nat := parseUnsigned usizeMax s

/-- Rust `"…".parse::<i32>()`. -/
def parseI32 (s : String) : Option Int := parseSigned i32Min i32Max s

/-- Rust `"…".parse::<i64>()`. -/
def parseI64 (s : String) : Option Int := parseSigned i64Min i64Max s

/-- Rust `"…".parse::<isize>()` (64-bit). -/
def parseIsize (s : String) : Option Int := parseSigned i64Min i64Max s

/-- Split a character list at every occurrence of `sep` (the always-nonempty
result convention of `str::split`). -/
def splitOnChar (sep : Char) : List Char → List (List Char)
  | [] => [[]]
  | c :: cs =>
    match splitOnChar sep cs, decide (c = sep) with
    | rest, true => [] :: rest
    | r :: rs, false => (c :: r) :: rs
    | [], false => [[c]]

/-- Rust `f32` text parsing, modelled as an exact rational: optional sign,
digits, optional fractional part.  IEEE rounding and the `inf`/`nan`/exponent
forms are not modelled; no claim inspects a parsed float value. -/
def parseF32 (s : String) : Option Rat :=
  let mag : List Char → Option Rat := fun cs =>
    match splitOnChar '.' cs with
    | [intPart] => (digitsVal? intPart).map fun n => (n : Rat)
    | [intPart, fracPart] =>
      (digitsVal? intPart).bind fun n =>
        (digitsVal? fracPart).map fun f =>
          (n : Rat) + (f : Rat) / ((10 : Rat) ^ fracPart.length)
    | _ => none
  match s.data with
  | '+' :: cs => mag cs
  | '-' :: cs => (mag cs).map (-·)
  | cs => mag cs

/-! ## Primitive value types

Small wrapper types over integers (`frame_number.rs`, `frame_number_next.rs`,
`pic.rs`, `wait.rs`, `object_id.rs`, `weapon_strength_index.rs`). -/

/-- Rust `FrameNumber(pub usize)`. -/
abbrev FrameNumber := Nat

/-- Rust `FrameNumberNext(pub isize)`: negative encodes a facing flip. -/
abbrev FrameNumberNext := Int

/-- Rust `Pic(pub isize)`: negative encodes a sprite flip. -/
abbrev Pic := Int

/-- Rust `Wait(pub NonZeroU32)`, kept as the numeric value. -/
abbrev Wait := Nat

/-- Rust `WAIT_DEFAULT`: wait value of 1. -/
def WAIT_DEFAULT : Wait := 1

/-- Rust `Wait::from_str`: parse as `u32`; `NonZeroU32::new` returns `None` for 0,
which falls back to `WAIT_DEFAULT`. -/
def waitFromStr (s : String) : Option Wait :=
  (parseU32 s).map fun w => if w = 0 then WAIT_DEFAULT else w

/-- Rust `ObjectId(pub u32)`. -/
abbrev ObjectId := Nat

/-- Rust `WeaponStrengthIndex(pub usize)`. -/
abbrev WeaponStrengthIndex := Nat

/-! ## Enumerated tag types and their parse errors -/

/-- Placeholder for `std::num::ParseIntError` (carried, never inspected). -/
inductive ParseIntError where
  | parseIntError
  deriving DecidableEq, Repr

/-- Placeholder for `std::num::ParseFloatError`. -/
inductive ParseFloatError where
  | parseFloatError
  deriving DecidableEq, Repr

/-- Rust `BdyKind`: `Normal`, or `Hostage` carrying the frame to switch to when
freed (a `FrameNumberNext`, so the sign encodes a facing flip). -/
inductive BdyKind where
  | Normal
  | Hostage (freedFrame : FrameNumberNext)
  deriving DecidableEq, Repr

/-- Rust `Default for BdyKind`. -/
def BdyKind.default : BdyKind := .Normal

/-- Rust `BdyKindParseError`. -/
inductive BdyKindParseError where
  | ParseIntError (error : ParseIntError)
  | InvalidValue (value : Int)
  deriving DecidableEq, Repr

/-- Rust `BdyKind::from_frame_number`. -/
def BdyKind.fromFrameNumber (value : Int) : BdyKind :=
  .Hostage value

/-- The range match inside `BdyKind::from_str` (`bdy_kind.rs` lines 36–43):
`-1999..=-1000` and `1000..=1999` are `Hostage` (±1000 offset), `0` is
`Normal`, everything else is invalid. -/
def BdyKind.fromValue (value : Int) : Except BdyKindParseError BdyKind :=
  if -1999 ≤ value ∧ value ≤ -1000 then .ok (BdyKind.fromFrameNumber (value + 1000))
  else if -999 ≤ value ∧ value ≤ -1 then .error (.InvalidValue value)
  else if value = 0 then .ok .Normal
  else if 1 ≤ value ∧ value ≤ 999 then .error (.InvalidValue value)
  else if 1000 ≤ value ∧ value ≤ 1999 then .ok (BdyKind.fromFrameNumber (value - 1000))
  else .error (.InvalidValue value)

/-- Rust `BdyKind::from_str` (`bdy_kind.rs` lines 30–45): parse as `isize`, then
decode the coded range. -/
def BdyKind.fromStr (s : String) : Except BdyKindParseError BdyKind :=
  match parseIsize s with
  | none => .error (.ParseIntError .parseIntError)
  | some value => BdyKind.fromValue value

/-- Rust `CPointKind`: `Catcher = 1` or `Caught = 2`. -/
inductive CPointKind where
  | Catcher
  | Caught
  deriving DecidableEq, Repr

/-- Rust `Default for CPointKind` (`Catcher`). -/
def CPointKind.default : CPointKind := .Catcher

/-- Rust `CPointKindParseError`. -/
inductive CPointKindParseError where
  | ParseIntError (error : ParseIntError)
  | InvalidValue (value : Nat)
  deriving DecidableEq, Repr

/-- Rust `CPointKind::from_str`: parse as `u32`, then table-match. -/
def CPointKind.fromStr (s : String) : Except CPointKindParseError CPointKind :=
  match parseU32 s with
  | none => .error (.ParseIntError .parseIntError)
  | some 1 => .ok .Catcher
  | some 2 => .ok .Caught
  | some value => .error (.InvalidValue value)

/-- Rust `WPointKind`: `Holding = 1`, `Held = 2`, `Dropping = 3`. -/
inductive WPointKind where
  | Holding
  | Held
  | Dropping
  deriving DecidableEq, Repr

/-- Default `WPointKind` used when building `WPoint::default()`; the source
snapshot does not show the impl, the first variant is used. -/
def WPointKind.default : WPointKind := .Holding

/-- Rust `WPointKindParseError`. -/
inductive WPointKindParseError where
  | ParseIntError (error : ParseIntError)
  | InvalidValue (value : Nat)
  deriving DecidableEq, Repr

/-- Rust `WPointKind::from_str`: parse as `u32`, then table-match. -/
def WPointKind.fromStr (s : String) : Except WPointKindParseError WPointKind :=
  match parseU32 s with
  | none => .error (.ParseIntError .parseIntError)
  | some 1 => .ok .Holding
  | some 2 => .ok .Held
  | some 3 => .ok .Dropping
  | some value => .error (.InvalidValue value)

/-- Rust `OPointKind`: `Spawn = 1` or `HoldLightWeapon = 2`. -/
inductive OPointKind where
  | Spawn
  | HoldLightWeapon
  deriving DecidableEq, Repr

/-- Rust `Default for OPointKind` (`Spawn`). -/
def OPointKind.default : OPointKind := .Spawn

/-- Rust `OPointKindParseError`. -/
inductive OPointKindParseError where
  | ParseIntError (error : ParseIntError)
  | InvalidValue (value : Nat)
  deriving DecidableEq, Repr

/-- Rust `OPointKind::from_str`: parse as `u32`, then table-match. -/
def OPointKind.fromStr (s : String) : Except OPointKindParseError OPointKind :=
  match parseU32 s with
  | none => .error (.ParseIntError .parseIntError)
  | some 1 => .ok .Spawn
  | some 2 => .ok .HoldLightWeapon
  | some value => .error (.InvalidValue value)

/-- Rust `OPointFacingDir` (`o_point_facing_dir.rs`). -/
inductive OPointFacingDir where
  | ParentSame
  | ParentOpposite
  | Right
  deriving DecidableEq, Repr

/-- Default `OPointFacingDir` used by the derived `OPointFacing::default()`;
the first variant. -/
def OPointFacingDir.default : OPointFacingDir := .ParentSame

/-- Rust `OPointFacing` (`o_point/o_point_facing.rs`): number of objects to spawn
and their facing direction. -/
structure OPointFacing where
  count : Nat
  direction : OPointFacingDir
  deriving DecidableEq, Repr

/-- Rust `OPointFacing::from_str` (`o_point/o_point_facing.rs` lines 14–44):
parse as `u32`; `0` and `1` spawn one object (same / opposite facing), `10`
spawns one object always facing right, and any other value spawns
`value / 10` objects with the facing selected by the low bit. -/
def OPointFacing.fromStr (s : String) : Except ParseIntError OPointFacing :=
  match parseU32 s with
  | none => .error .parseIntError
  | some value =>
    if value = 0 then .ok { count := 1, direction := .ParentSame }
    else if value = 1 then .ok { count := 1, direction := .ParentOpposite }
    else if value = 10 then .ok { count := 1, direction := .Right }
    else
      .ok
        { count := value / 10
          direction := if value &&& 1 = 0 then .ParentSame else .ParentOpposite }

/-- Rust `Effect` (`effect.rs`): itr effect variants. -/
inductive Effect where
  | Normal
  | Blood
  | Fire
  | Ice
  | Reflect
  | Reflects
  | FireGround
  | FireBreath
  | FireExplode
  | PowerExplode
  | Icicle
  deriving DecidableEq, Repr

/-- Default `Effect` (the zero variant `Normal`). -/
def Effect.default : Effect := .Normal

/-- Rust `EffectParseError`. -/
inductive EffectParseError where
  | ParseIntError (error : ParseIntError)
  | InvalidValue (value : Nat)
  deriving DecidableEq, Repr

/-- Rust `Effect::from_str` (`effect.rs` lines 98–115). -/
def Effect.fromStr (s : String) : Except EffectParseError Effect :=
  match parseU32 s with
  | none => .error (.ParseIntError .parseIntError)
  | some 0 => .ok .Normal
  | some 1 => .ok .Blood
  | some 2 => .ok .Fire
  | some 3 => .ok .Ice
  | some 4 => .ok .Reflect
  | some 5 => .ok .Reflects
  | some 20 => .ok .FireGround
  | some 21 => .ok .FireBreath
  | some 22 => .ok .FireExplode
  | some 23 => .ok .PowerExplode
  | some 30 => .ok .Icicle
  | some value => .error (.InvalidValue value)

/-- Rust `ItrKind` discriminants (`itr/itr_kind.rs`): `Normal = 0` …
`WhirlwindIce = 16`, kept as the numeric code. -/
def itrKindCodes : List Nat := [0, 1, 2, 3, 4, 5, 6, 7, 8, 9, 10, 11, 14, 15, 16]

/-- Rust `ItrKind`, represented by its validated numeric code. -/
structure ItrKind where
  code : Nat
  deriving DecidableEq, Repr

/-- Default `ItrKind` (the zero variant `Normal`). -/
def ItrKind.default : ItrKind := ⟨0⟩

/-- Rust `ItrKindParseError`. -/
inductive ItrKindParseError where
  | ParseIntError (error : ParseIntError)
  | InvalidValue (value : Nat)
  deriving DecidableEq, Repr

/-- Modelled from the spec: `ItrKind`'s `FromStr` impl is not under `src/`
(only the enum and `ItrKindParseError` are).  Per §4.2 enumerated tag parsing
is two-phase: parse as the underlying `u32`, then match against the code
table, rejecting unknown codes with an invalid-value error. -/
def ItrKind.fromStr (s : String) : Except ItrKindParseError ItrKind :=
  match parseU32 s with
  | none => .error (.ParseIntError .parseIntError)
  | some value =>
    if value ∈ itrKindCodes then .ok ⟨value⟩ else .error (.InvalidValue value)

/-- Rust `State` discriminants (`state.rs`): the closed set of valid state codes. -/
def stateCodes : List Nat :=
  (List.range 20) ++ [100, 301, 400, 401, 500, 501, 1700]
    ++ [1000, 1001, 1002, 1003, 1004, 2000, 2001, 2004]
    ++ [3000, 3001, 3002, 3003, 3004, 3005, 3006]
    ++ (List.range 100).map (8000 + ·)
    ++ [9995, 9996, 9997, 9998, 9999]

/-- Rust `State` (`state.rs`), represented by its validated numeric code; the core
stores the code without interpreting state semantics. -/
structure State where
  code : Nat
  deriving DecidableEq, Repr

/-- Rust `StateParseError` (`frame/state/state_parse_error.rs`). -/
inductive StateParseError where
  | ParseIntError (error : ParseIntError)
  | InvalidValue (value : Nat)
  deriving DecidableEq, Repr

/-- Modelled from the spec: `State`'s `FromStr` impl is not under `src/`
(only the enum and `StateParseError` are).  Per §4.2: parse as `u32`
(`StateParseError::ParseIntError`), then match the closed code table from
`state.rs`, rejecting unknown codes (`StateParseError::InvalidValue`). -/
def State.fromStr (s : String) : Except StateParseError State :=
  match parseU32 s with
  | none => .error (.ParseIntError .parseIntError)
  | some value =>
    if value ∈ stateCodes then .ok ⟨value⟩ else .error (.InvalidValue value)

/-! ## Frame element variants (`element/…`) -/

/-- Rust `Bdy` (`bdy.rs`): hittable body of the object. -/
structure Bdy where
  kind : BdyKind
  x : Int
  y : Int
  w : Nat
  h : Nat
  deriving DecidableEq, Repr

/-- Rust `Bdy::default()` (derived: every field's default). -/
def Bdy.default : Bdy :=
  { kind := BdyKind.default, x := 0, y := 0, w := 0, h := 0 }

/-- Rust `BPoint` (`b_point.rs`): bleeding coordinates. -/
structure BPoint where
  x : Int
  y : Int
  deriving DecidableEq, Repr

/-- Rust `BPoint::default()`. -/
def BPoint.default : BPoint := { x := 0, y := 0 }

/-- Rust `CPoint` (`c_point.rs`): catch-point record. -/
structure CPoint where
  kind : CPointKind
  x : Int
  y : Int
  cover : Bool
  decrease : Int
  dirControl : Bool
  hurtable : Bool
  injury : Int
  aAction : FrameNumberNext
  jAction : FrameNumberNext
  vAction : FrameNumber
  tAction : FrameNumberNext
  throwInjury : Int
  throwVx : Int
  throwVy : Int
  throwVz : Int
  frontHurtAct : FrameNumberNext
  backHurtAct : FrameNumberNext
  deriving DecidableEq, Repr

/-- Rust `CPoint::default()` (derived: booleans default to `false`). -/
def CPoint.default : CPoint :=
  { kind := CPointKind.default, x := 0, y := 0, cover := false, decrease := 0
    dirControl := false, hurtable := false, injury := 0, aAction := 0
    jAction := 0, vAction := 0, tAction := 0, throwInjury := 0, throwVx := 0
    throwVy := 0, throwVz := 0, frontHurtAct := 0, backHurtAct := 0 }

/-- Rust `Itr` (`itr.rs`): area that hits other objects. -/
structure Itr where
  kind : ItrKind
  x : Int
  y : Int
  w : Nat
  h : Nat
  zWidth : Nat
  dVx : Int
  dVy : Int
  aRest : Nat
  vRest : Nat
  fall : Int
  bDefend : Int
  injury : Int
  effect : Effect
  catchingAct : FrameNumberNext
  caughtAct : FrameNumberNext
  deriving DecidableEq, Repr

/-- Rust `Itr::Z_WIDTH_DEFAULT` (`itr.rs` line 163). -/
def Itr.Z_WIDTH_DEFAULT : Nat := 13

/-- Rust `Itr::default()` (`itr.rs` lines 138–159): every field defaults to zero
except `z_width`, which defaults to `Z_WIDTH_DEFAULT`. -/
def Itr.default : Itr :=
  { kind := ItrKind.default, x := 0, y := 0, w := 0, h := 0
    zWidth := Itr.Z_WIDTH_DEFAULT, dVx := 0, dVy := 0, aRest := 0, vRest := 0
    fall := 0, bDefend := 0, injury := 0, effect := Effect.default
    catchingAct := 0, caughtAct := 0 }

/-- Rust `WPoint` (`w_point.rs`): weapon point. -/
structure WPoint where
  kind : WPointKind
  x : Int
  y : Int
  weaponAct : FrameNumberNext
  attacking : WeaponStrengthIndex
  dVx : Int
  dVy : Int
  deriving DecidableEq, Repr

/-- Rust `WPoint::default()`. -/
def WPoint.default : WPoint :=
  { kind := WPointKind.default, x := 0, y := 0, weaponAct := 0, attacking := 0
    dVx := 0, dVy := 0 }

/-- Rust `OPoint` (`o_point.rs`): object-spawn point. -/
structure OPoint where
  kind : OPointKind
  x : Int
  y : Int
  action : FrameNumberNext
  dVx : Int
  dVy : Int
  objectId : ObjectId
  facing : OPointFacing
  deriving DecidableEq, Repr

/-- Rust `OPoint::default()`. -/
def OPoint.default : OPoint :=
  { kind := OPointKind.default, x := 0, y := 0, action := 0, dVx := 0, dVy := 0
    objectId := 0, facing := { count := 0, direction := OPointFacingDir.default } }

/-- Rust `Element` (`element.rs`): closed polymorphic variant over the six frame
element kinds. -/
inductive Element where
  | Bdy (bdy : Bdy)
  | BPoint (bPoint : BPoint)
  | CPoint (cPoint : CPoint)
  | Itr (itr : Itr)
  | OPoint (oPoint : OPoint)
  | WPoint (wPoint : WPoint)
  deriving DecidableEq, Repr

/-! ## Frame, Frames, Header, ObjectData data model -/

/-- Rust `Frame` (`frame.rs` lines 9–48).  This snapshot of the struct has no
`elements` field; `Element` nodes in the frame body are not represented. -/
structure Frame where
  number : FrameNumber
  name : String
  centerX : Int
  centerY : Int
  dVx : Int
  dVy : Int
  dVz : Int
  hitA : FrameNumberNext
  hitD : FrameNumberNext
  hitDa : FrameNumberNext
  hitDj : FrameNumberNext
  hitFa : FrameNumberNext
  hitFj : FrameNumberNext
  hitJ : FrameNumberNext
  hitJa : FrameNumberNext
  hitUa : FrameNumberNext
  hitUj : FrameNumberNext
  mp : Int
  nextFrame : FrameNumberNext
  pic : Pic
  sound : Option String
  state : State
  wait : Wait
  deriving DecidableEq, Repr

/-- Rust `Frames(pub Vec<Frame>)` (`frames.rs`). -/
abbrev Frames := List Frame

/-- Rust `SpriteFile` (`sprite_file.rs`): sprite-sheet layout descriptor. -/
structure SpriteFile where
  path : String
  w : Nat
  h : Nat
  row : Nat
  col : Nat
  deriving DecidableEq, Repr

/-- Rust `Header` (`header.rs`): object metadata.  `f32` fields are carried as
exact rationals (see `parseF32`). -/
structure Header where
  name : String
  head : String
  small : String
  file : List SpriteFile
  walkingFrameRate : Nat
  walkingSpeed : Rat
  walkingSpeedZ : Rat
  runningFrameRate : Nat
  runningSpeed : Rat
  runningSpeedZ : Rat
  heavyWalkingSpeed : Rat
  heavyWalkingSpeedZ : Rat
  heavyRunningSpeed : Rat
  heavyRunningSpeedZ : Rat
  jumpHeight : Rat
  jumpDistance : Rat
  jumpDistanceZ : Rat
  dashHeight : Rat
  dashDistance : Rat
  dashDistanceZ : Rat
  rowingHeight : Rat
  rowingDistance : Rat
  deriving DecidableEq, Repr

/-- The all-zero `Header` used by `ObjectData::default()`. -/
def Header.default : Header :=
  { name := "", head := "", small := "", file := [], walkingFrameRate := 0
    walkingSpeed := 0, walkingSpeedZ := 0, runningFrameRate := 0
    runningSpeed := 0, runningSpeedZ := 0, heavyWalkingSpeed := 0
    heavyWalkingSpeedZ := 0, heavyRunningSpeed := 0, heavyRunningSpeedZ := 0
    jumpHeight := 0, jumpDistance := 0, jumpDistanceZ := 0, dashHeight := 0
    dashDistance := 0, dashDistanceZ := 0, rowingHeight := 0
    rowingDistance := 0 }

/-- Rust `ObjectData` (`object_data.rs`): one `Header` and one `Frames`. -/
structure ObjectData where
  header : Header
  frames : Frames
  deriving DecidableEq, Repr

/-- Rust `ObjectData::default()`. -/
def ObjectData.default : ObjectData :=
  { header := Header.default, frames := [] }

/-! ## Error taxonomy (`error.rs`) -/

/-- Error of the external `lf2_codec` decoding collaborator; opaque to this
core, carried verbatim. -/
structure DecodeError where
  message : String
  deriving DecidableEq, Repr

/-- Rust `Error<'i>` (`error.rs`): the crate-level error enum.  Variants for
OS-level `io::Error` payloads drop the underlying error value; variants
carrying `Pair`s carry the node itself, as the Rust type does.
`DataBuildFailed` carries the name of the first unset builder field
(`derive_builder`'s `UninitializedFieldError`). -/
inductive Error where
  | DecodeError (error : DecodeError)
  | FileOpenError (path : String)
  | FileReadError (path : String)
  | FrameNumberNonUnique (frameNumber : FrameNumber) (framePairs : List Pair)
  | DecodedDataInvalidUtf8
  | ObjectDataExpected
  | ObjectDataSurplus (objectData : ObjectData) (surplusPairs : List Pair)
  | ParseBdyKind (valuePair : Pair) (error : BdyKindParseError)
  | ParseCPointKind (valuePair : Pair) (error : CPointKindParseError)
  | ParseItrKind (valuePair : Pair) (error : ItrKindParseError)
  | ParseItrEffect (valuePair : Pair) (error : EffectParseError)
  | ParseOPointKind (valuePair : Pair) (error : OPointKindParseError)
  | ParseOPointAction (valuePair : Pair) (error : ParseIntError)
  | ParseWPointKind (valuePair : Pair) (error : WPointKindParseError)
  | ParseWeaponAct (valuePair : Pair) (error : ParseIntError)
  | ParseWeaponStrengthIndex (valuePair : Pair) (error : ParseIntError)
  | ParseFloat (field : String) (valuePair : Pair) (error : ParseFloatError)
  | ParseInt (field : String) (valuePair : Pair) (error : ParseIntError)
  | ParsePath (field : String) (valuePair : Pair)
  | ElementBuildNone (elementPair : Pair)
  | GrammarSingle (ruleExpected : Rule) (pairFound : Option Pair)
  | Grammar (rulesExpected : List Rule) (pairFound : Option Pair)
  | ValueExpected (tagPair : Pair)
  | StateParse (valuePair : Pair) (error : StateParseError)
  | DataBuildFailed (field : String)

/-! ## Generic tree-walking driver (`object_data_parser.rs`) -/

/-- Rust `SubRuleFn<TBuilder>`: a function that processes a sub grammar rule. -/
def SubRuleFn (B : Type) : Type := B → Pair → Except Error B

/-- The `try_fold` over `pairs.zip(subrule_fns)` inside
`ObjectDataParser::parse_as_type`: child pairs are fed positionally to the
sub-rule functions, short-circuiting on the first error; `zip` stops at the
shorter of the two lists. -/
def zipTryFold {B : Type} (builder : B) :
    List Pair → List (SubRuleFn B) → Except Error B
  | [], _ => .ok builder
  | _, [] => .ok builder
  | p :: ps, f :: fs =>
    match f builder p with
    | .ok b => zipTryFold b ps fs
    | .error e => .error e

namespace ObjectDataParser

/-- Rust `ObjectDataParser::parse_as_type` (`object_data_parser.rs` lines 61–84):
check the node's rule kind, then feed its inner pairs positionally to the
sub-rule functions. -/
def parseAsType {B : Type} (builder : B) (pair : Pair) (ruleExpected : Rule)
    (subruleFns : List (SubRuleFn B)) : Except Error B :=
  if pair.rule = ruleExpected then
    zipTryFold builder pair.children subruleFns
  else
    .error (.GrammarSingle ruleExpected (some pair))

/-- Rust `ObjectDataParser::parse_value` (`object_data_parser.rs` lines 86–99):
unwrap a tag node to its one value child. -/
def parseValue {B : Type} (builder : B) (tagPair : Pair)
    (subruleFn : SubRuleFn B) : Except Error B :=
  match tagPair.children.head? with
  | some valuePair => subruleFn builder valuePair
  | none => .error (.ValueExpected tagPair)

end ObjectDataParser

/-- The `into_inner().try_fold(acc, f)` pattern used by the `parse_tags` /
`parse_data` functions: fold `f` over child pairs, short-circuiting on the
first error. -/
def tryFold {B : Type} (f : B → Pair → Except Error B) :
    B → List Pair → Except Error B
  | b, [] => .ok b
  | b, p :: ps =>
    match f b p with
    | .ok b' => tryFold f b' ps
    | .error e => .error e

/-- The repeated `value_pair.as_str().parse().map_err(|error| Error::ParseInt
{ field, value_pair, error })` pattern for signed integer fields. -/
def parseIntValue (parse : String → Option Int) (field : String)
    (valuePair : Pair) : Except Error Int :=
  match parse valuePair.text with
  | some v => .ok v
  | none => .error (.ParseInt field valuePair .parseIntError)

/-- The same pattern for unsigned integer fields. -/
def parseNatValue (parse : String → Option Nat) (field : String)
    (valuePair : Pair) : Except Error Nat :=
  match parse valuePair.text with
  | some v => .ok v
  | none => .error (.ParseInt field valuePair .parseIntError)

/-! ## `Bdy` parsing (`bdy.rs`) -/

namespace Bdy

/-- Rust `Bdy::parse_kind_value`. -/
def parseKindValue (bdy : Bdy) (valuePair : Pair) : Except Error Bdy :=
  match BdyKind.fromStr valuePair.text with
  | .ok kind => .ok { bdy with kind := kind }
  | .error error => .error (.ParseBdyKind valuePair error)

/-- Rust `Bdy::parse_x_value` (field `x`, an `i32`). -/
def parseXValue (bdy : Bdy) (valuePair : Pair) : Except Error Bdy :=
  (parseIntValue parseI32 "x" valuePair).map fun x => { bdy with x := x }

/-- Rust `Bdy::parse_y_value`. -/
def parseYValue (bdy : Bdy) (valuePair : Pair) : Except Error Bdy :=
  (parseIntValue parseI32 "y" valuePair).map fun y => { bdy with y := y }

/-- Rust `Bdy::parse_w_value` (field `w`, a `u32`). -/
def parseWValue (bdy : Bdy) (valuePair : Pair) : Except Error Bdy :=
  (parseNatValue parseU32 "w" valuePair).map fun w => { bdy with w := w }

/-- Rust `Bdy::parse_h_value`. -/
def parseHValue (bdy : Bdy) (valuePair : Pair) : Except Error Bdy :=
  (parseNatValue parseU32 "h" valuePair).map fun h => { bdy with h := h }

/-- Rust `Bdy::parse_tag_value`: dispatch on the tag's rule; unknown tags are
ignored. -/
def parseTagValue (bdy : Bdy) (bdyTagPair : Pair) : Except Error Bdy :=
  match bdyTagPair.rule with
  | .TagKind => ObjectDataParser.parseValue bdy bdyTagPair parseKindValue
  | .TagX => ObjectDataParser.parseValue bdy bdyTagPair parseXValue
  | .TagY => ObjectDataParser.parseValue bdy bdyTagPair parseYValue
  | .TagW => ObjectDataParser.parseValue bdy bdyTagPair parseWValue
  | .TagH => ObjectDataParser.parseValue bdy bdyTagPair parseHValue
  | _ => .ok bdy

/-- Rust `Bdy::parse_tag`. -/
def parseTag (bdy : Bdy) (bdyTagPair : Pair) : Except Error Bdy :=
  ObjectDataParser.parseAsType bdy bdyTagPair .BdyTag [parseTagValue]

/-- Rust `Bdy::parse_tags`. -/
def parseTags (bdy : Bdy) (bdyDataPair : Pair) : Except Error Bdy :=
  tryFold parseTag bdy bdyDataPair.children

/-- Rust `TryFrom<Pair> for Bdy`. -/
def tryFrom (pair : Pair) : Except Error Bdy :=
  ObjectDataParser.parseAsType Bdy.default pair .Bdy [parseTags]

end Bdy

/-! ## `BPoint` parsing (`b_point.rs`) -/

namespace BPoint

/-- Rust `BPoint::parse_x_value`. -/
def parseXValue (bPoint : BPoint) (valuePair : Pair) : Except Error BPoint :=
  (parseIntValue parseI32 "x" valuePair).map fun x => { bPoint with x := x }

/-- Rust `BPoint::parse_y_value`. -/
def parseYValue (bPoint : BPoint) (valuePair : Pair) : Except Error BPoint :=
  (parseIntValue parseI32 "y" valuePair).map fun y => { bPoint with y := y }

/-- Rust `BPoint::parse_tag_value`. -/
def parseTagValue (bPoint : BPoint) (bPointTagPair : Pair) :
    Except Error BPoint :=
  match bPointTagPair.rule with
  | .TagX => ObjectDataParser.parseValue bPoint bPointTagPair parseXValue
  | .TagY => ObjectDataParser.parseValue bPoint bPointTagPair parseYValue
  | _ => .ok bPoint

/-- Rust `BPoint::parse_tag`. -/
def parseTag (bPoint : BPoint) (bPointTagPair : Pair) : Except Error BPoint :=
  ObjectDataParser.parseAsType bPoint bPointTagPair .BPointTag [parseTagValue]

/-- Rust `BPoint::parse_tags`. -/
def parseTags (bPoint : BPoint) (bPointDataPair : Pair) : Except Error BPoint :=
  tryFold parseTag bPoint bPointDataPair.children

/-- Rust `TryFrom<Pair> for BPoint`. -/
def tryFrom (pair : Pair) : Except Error BPoint :=
  ObjectDataParser.parseAsType BPoint.default pair .BPoint [parseTags]

end BPoint

/-! ## `WPoint` parsing (`w_point.rs`) -/

namespace WPoint

/-- Rust `WPoint::parse_kind_value`. -/
def parseKindValue (wPoint : WPoint) (valuePair : Pair) : Except Error WPoint :=
  match WPointKind.fromStr valuePair.text with
  | .ok kind => .ok { wPoint with kind := kind }
  | .error error => .error (.ParseWPointKind valuePair error)

/-- Rust `WPoint::parse_x_value`. -/
def parseXValue (wPoint : WPoint) (valuePair : Pair) : Except Error WPoint :=
  (parseIntValue parseI32 "x" valuePair).map fun x => { wPoint with x := x }

/-- Rust `WPoint::parse_y_value`. -/
def parseYValue (wPoint : WPoint) (valuePair : Pair) : Except Error WPoint :=
  (parseIntValue parseI32 "y" valuePair).map fun y => { wPoint with y := y }

/-- Rust `WPoint::parse_weapon_act_value` (a `FrameNumberNext`, parsed as `isize`;
failure is wrapped as `Error::ParseWeaponAct`). -/
def parseWeaponActValue (wPoint : WPoint) (valuePair : Pair) :
    Except Error WPoint :=
  match parseIsize valuePair.text with
  | some weaponAct => .ok { wPoint with weaponAct := weaponAct }
  | none => .error (.ParseWeaponAct valuePair .parseIntError)

/-- Rust `WPoint::parse_attacking_value` (a `WeaponStrengthIndex`, parsed as
`usize`; failure is wrapped as `Error::ParseWeaponStrengthIndex`). -/
def parseAttackingValue (wPoint : WPoint) (valuePair : Pair) :
    Except Error WPoint :=
  match parseUsize valuePair.text with
  | some attacking => .ok { wPoint with attacking := attacking }
  | none => .error (.ParseWeaponStrengthIndex valuePair .parseIntError)

/-- Rust `WPoint::parse_d_vx_value` (an `i64`). -/
def parseDVxValue (wPoint : WPoint) (valuePair : Pair) : Except Error WPoint :=
  (parseIntValue parseI64 "d_vx" valuePair).map fun dVx =>
    { wPoint with dVx := dVx }

/-- Rust `WPoint::parse_d_vy_value`. -/
def parseDVyValue (wPoint : WPoint) (valuePair : Pair) : Except Error WPoint :=
  (parseIntValue parseI64 "d_vy" valuePair).map fun dVy =>
    { wPoint with dVy := dVy }

/-- Rust `WPoint::parse_tag_value`. -/
def parseTagValue (wPoint : WPoint) (wPointTagPair : Pair) :
    Except Error WPoint :=
  match wPointTagPair.rule with
  | .TagKind => ObjectDataParser.parseValue wPoint wPointTagPair parseKindValue
  | .TagX => ObjectDataParser.parseValue wPoint wPointTagPair parseXValue
  | .TagY => ObjectDataParser.parseValue wPoint wPointTagPair parseYValue
  | .TagWeaponAct =>
    ObjectDataParser.parseValue wPoint wPointTagPair parseWeaponActValue
  | .TagAttacking =>
    ObjectDataParser.parseValue wPoint wPointTagPair parseAttackingValue
  | .TagDVx => ObjectDataParser.parseValue wPoint wPointTagPair parseDVxValue
  | .TagDVy => ObjectDataParser.parseValue wPoint wPointTagPair parseDVyValue
  | _ => .ok wPoint

/-- Rust `WPoint::parse_tag`. -/
def parseTag (wPoint : WPoint) (wPointTagPair : Pair) : Except Error WPoint :=
  ObjectDataParser.parseAsType wPoint wPointTagPair .WPointTag [parseTagValue]

/-- Rust `WPoint::parse_tags`. -/
def parseTags (wPoint : WPoint) (wPointDataPair : Pair) : Except Error WPoint :=
  tryFold parseTag wPoint wPointDataPair.children

/-- Rust `TryFrom<Pair> for WPoint`. -/
def tryFrom (pair : Pair) : Except Error WPoint :=
  ObjectDataParser.parseAsType WPoint.default pair .WPoint [parseTags]

end WPoint

/-! ## `CPoint` parsing (`c_point.rs`) -/

namespace CPoint

/-- Rust `CPoint::parse_kind_value`. -/
def parseKindValue (cPoint : CPoint) (valuePair : Pair) : Except Error CPoint :=
  match CPointKind.fromStr valuePair.text with
  | .ok kind => .ok { cPoint with kind := kind }
  | .error error => .error (.ParseCPointKind valuePair error)

/-- Rust `CPoint::parse_x_value`. -/
def parseXValue (cPoint : CPoint) (valuePair : Pair) : Except Error CPoint :=
  (parseIntValue parseI32 "x" valuePair).map fun x => { cPoint with x := x }

/-- Rust `CPoint::parse_y_value`. -/
def parseYValue (cPoint : CPoint) (valuePair : Pair) : Except Error CPoint :=
  (parseIntValue parseI32 "y" valuePair).map fun y => { cPoint with y := y }

/-- Rust `CPoint::parse_cover_value`: parse as `u32`, cover iff non-zero. -/
def parseCoverValue (cPoint : CPoint) (valuePair : Pair) : Except Error CPoint :=
  (parseNatValue parseU32 "cover" valuePair).map fun value =>
    { cPoint with cover := value != 0 }

/-- Rust `CPoint::parse_decrease_value`. -/
def parseDecreaseValue (cPoint : CPoint) (valuePair : Pair) :
    Except Error CPoint :=
  (parseIntValue parseI32 "decrease" valuePair).map fun decrease =>
    { cPoint with decrease := decrease }

/-- Rust `CPoint::parse_dir_control_value`: parse as `u32`, allowed iff non-zero. -/
def parseDirControlValue (cPoint : CPoint) (valuePair : Pair) :
    Except Error CPoint :=
  (parseNatValue parseU32 "dir_control" valuePair).map fun value =>
    { cPoint with dirControl := value != 0 }

/-- Rust `CPoint::parse_hurtable_value`: parse as `u32`, hurtable iff non-zero. -/
def parseHurtableValue (cPoint : CPoint) (valuePair : Pair) :
    Except Error CPoint :=
  (parseNatValue parseU32 "hurtable" valuePair).map fun value =>
    { cPoint with hurtable := value != 0 }

/-- Rust `CPoint::parse_injury_value`. -/
def parseInjuryValue (cPoint : CPoint) (valuePair : Pair) :
    Except Error CPoint :=
  (parseIntValue parseI32 "injury" valuePair).map fun injury =>
    { cPoint with injury := injury }

/-- Rust `CPoint::parse_a_action_value`. -/
def parseAActionValue (cPoint : CPoint) (valuePair : Pair) :
    Except Error CPoint :=
  (parseIntValue parseIsize "a_action" valuePair).map fun aAction =>
    { cPoint with aAction := aAction }

/-- Rust `CPoint::parse_j_action_value`. -/
def parseJActionValue (cPoint : CPoint) (valuePair : Pair) :
    Except Error CPoint :=
  (parseIntValue parseIsize "j_action" valuePair).map fun jAction =>
    { cPoint with jAction := jAction }

/-- Rust `CPoint::parse_v_action_value` (a `FrameNumber`, parsed as `usize`). -/
def parseVActionValue (cPoint : CPoint) (valuePair : Pair) :
    Except Error CPoint :=
  (parseNatValue parseUsize "v_action" valuePair).map fun vAction =>
    { cPoint with vAction := vAction }

/-- Rust `CPoint::parse_t_action_value`. -/
def parseTActionValue (cPoint : CPoint) (valuePair : Pair) :
    Except Error CPoint :=
  (parseIntValue parseIsize "t_action" valuePair).map fun tAction =>
    { cPoint with tAction := tAction }

/-- Rust `CPoint::parse_throw_injury_value`. -/
def parseThrowInjuryValue (cPoint : CPoint) (valuePair : Pair) :
    Except Error CPoint :=
  (parseIntValue parseI32 "throw_injury" valuePair).map fun throwInjury =>
    { cPoint with throwInjury := throwInjury }

/-- Rust `CPoint::parse_throw_vx_value`. -/
def parseThrowVxValue (cPoint : CPoint) (valuePair : Pair) :
    Except Error CPoint :=
  (parseIntValue parseI32 "throw_vx" valuePair).map fun throwVx =>
    { cPoint with throwVx := throwVx }

/-- Rust `CPoint::parse_throw_vy_value`. -/
def parseThrowVyValue (cPoint : CPoint) (valuePair : Pair) :
    Except Error CPoint :=
  (parseIntValue parseI32 "throw_vy" valuePair).map fun throwVy =>
    { cPoint with throwVy := throwVy }

/-- Rust `CPoint::parse_throw_vz_value`. -/
def parseThrowVzValue (cPoint : CPoint) (valuePair : Pair) :
    Except Error CPoint :=
  (parseIntValue parseI32 "throw_vz" valuePair).map fun throwVz =>
    { cPoint with throwVz := throwVz }

/-- Rust `CPoint::parse_front_hurt_act_value`. -/
def parseFrontHurtActValue (cPoint : CPoint) (valuePair : Pair) :
    Except Error CPoint :=
  (parseIntValue parseIsize "front_hurt_act" valuePair).map fun frontHurtAct =>
    { cPoint with frontHurtAct := frontHurtAct }

/-- Rust `CPoint::parse_back_hurt_act_value`. -/
def parseBackHurtActValue (cPoint : CPoint) (valuePair : Pair) :
    Except Error CPoint :=
  (parseIntValue parseIsize "back_hurt_act" valuePair).map fun backHurtAct =>
    { cPoint with backHurtAct := backHurtAct }

/-- Rust `CPoint::parse_tag_value`. -/
def parseTagValue (cPoint : CPoint) (cPointTagPair : Pair) :
    Except Error CPoint :=
  match cPointTagPair.rule with
  | .TagKind => ObjectDataParser.parseValue cPoint cPointTagPair parseKindValue
  | .TagX => ObjectDataParser.parseValue cPoint cPointTagPair parseXValue
  | .TagY => ObjectDataParser.parseValue cPoint cPointTagPair parseYValue
  | .TagCover => ObjectDataParser.parseValue cPoint cPointTagPair parseCoverValue
  | .TagDecrease =>
    ObjectDataParser.parseValue cPoint cPointTagPair parseDecreaseValue
  | .TagDirControl =>
    ObjectDataParser.parseValue cPoint cPointTagPair parseDirControlValue
  | .TagHurtable =>
    ObjectDataParser.parseValue cPoint cPointTagPair parseHurtableValue
  | .TagInjury =>
    ObjectDataParser.parseValue cPoint cPointTagPair parseInjuryValue
  | .TagAAction =>
    ObjectDataParser.parseValue cPoint cPointTagPair parseAActionValue
  | .TagJAction =>
    ObjectDataParser.parseValue cPoint cPointTagPair parseJActionValue
  | .TagVAction =>
    ObjectDataParser.parseValue cPoint cPointTagPair parseVActionValue
  | .TagTAction =>
    ObjectDataParser.parseValue cPoint cPointTagPair parseTActionValue
  | .TagThrowInjury =>
    ObjectDataParser.parseValue cPoint cPointTagPair parseThrowInjuryValue
  | .TagThrowVx =>
    ObjectDataParser.parseValue cPoint cPointTagPair parseThrowVxValue
  | .TagThrowVy =>
    ObjectDataParser.parseValue cPoint cPointTagPair parseThrowVyValue
  | .TagThrowVz =>
    ObjectDataParser.parseValue cPoint cPointTagPair parseThrowVzValue
  | .TagFrontHurtAct =>
    ObjectDataParser.parseValue cPoint cPointTagPair parseFrontHurtActValue
  | .TagBackHurtAct =>
    ObjectDataParser.parseValue cPoint cPointTagPair parseBackHurtActValue
  | _ => .ok cPoint

/-- Rust `CPoint::parse_tag`. -/
def parseTag (cPoint : CPoint) (cPointTagPair : Pair) : Except Error CPoint :=
  ObjectDataParser.parseAsType cPoint cPointTagPair .CPointTag [parseTagValue]

/-- Rust `CPoint::parse_tags`. -/
def parseTags (cPoint : CPoint) (cPointDataPair : Pair) : Except Error CPoint :=
  tryFold parseTag cPoint cPointDataPair.children

/-- Rust `TryFrom<Pair> for CPoint`. -/
def tryFrom (pair : Pair) : Except Error CPoint :=
  ObjectDataParser.parseAsType CPoint.default pair .CPoint [parseTags]

end CPoint

/-! ## `Itr` parsing (`itr.rs`) -/

namespace Itr

/-- Rust `Itr::parse_kind_value`. -/
def parseKindValue (itr : Itr) (valuePair : Pair) : Except Error Itr :=
  match ItrKind.fromStr valuePair.text with
  | .ok kind => .ok { itr with kind := kind }
  | .error error => .error (.ParseItrKind valuePair error)

/-- Rust `Itr::parse_x_value`. -/
def parseXValue (itr : Itr) (valuePair : Pair) : Except Error Itr :=
  (parseIntValue parseI32 "x" valuePair).map fun x => { itr with x := x }

/-- Rust `Itr::parse_y_value`. -/
def parseYValue (itr : Itr) (valuePair : Pair) : Except Error Itr :=
  (parseIntValue parseI32 "y" valuePair).map fun y => { itr with y := y }

/-- Rust `Itr::parse_w_value`. -/
def parseWValue (itr : Itr) (valuePair : Pair) : Except Error Itr :=
  (parseNatValue parseU32 "w" valuePair).map fun w => { itr with w := w }

/-- Rust `Itr::parse_h_value`. -/
def parseHValue (itr : Itr) (valuePair : Pair) : Except Error Itr :=
  (parseNatValue parseU32 "h" valuePair).map fun h => { itr with h := h }

/-- Rust `Itr::parse_z_width_value` (field `zwidth`, a `u32`). -/
def parseZWidthValue (itr : Itr) (valuePair : Pair) : Except Error Itr :=
  (parseNatValue parseU32 "zwidth" valuePair).map fun zWidth =>
    { itr with zWidth := zWidth }

/-- Rust `Itr::parse_d_vx_value` (an `i64`). -/
def parseDVxValue (itr : Itr) (valuePair : Pair) : Except Error Itr :=
  (parseIntValue parseI64 "d_vx" valuePair).map fun dVx => { itr with dVx := dVx }

/-- Rust `Itr::parse_d_vy_value`. -/
def parseDVyValue (itr : Itr) (valuePair : Pair) : Except Error Itr :=
  (parseIntValue parseI64 "d_vy" valuePair).map fun dVy => { itr with dVy := dVy }

/-- Rust `Itr::parse_a_rest_value` (field `arest`, a `u32`). -/
def parseARestValue (itr : Itr) (valuePair : Pair) : Except Error Itr :=
  (parseNatValue parseU32 "arest" valuePair).map fun aRest =>
    { itr with aRest := aRest }

/-- Rust `Itr::parse_v_rest_value` (field `vrest`, a `u32`). -/
def parseVRestValue (itr : Itr) (valuePair : Pair) : Except Error Itr :=
  (parseNatValue parseU32 "vrest" valuePair).map fun vRest =>
    { itr with vRest := vRest }

/-- Rust `Itr::parse_fall_value` (an `i32`). -/
def parseFallValue (itr : Itr) (valuePair : Pair) : Except Error Itr :=
  (parseIntValue parseI32 "fall" valuePair).map fun fall =>
    { itr with fall := fall }

/-- Rust `Itr::parse_b_defend_value` (an `i32`). -/
def parseBDefendValue (itr : Itr) (valuePair : Pair) : Except Error Itr :=
  (parseIntValue parseI32 "b_defend" valuePair).map fun bDefend =>
    { itr with bDefend := bDefend }

/-- Rust `Itr::parse_injury_value` (an `i32`). -/
def parseInjuryValue (itr : Itr) (valuePair : Pair) : Except Error Itr :=
  (parseIntValue parseI32 "injury" valuePair).map fun injury =>
    { itr with injury := injury }

/-- Rust `Itr::parse_effect_value`. -/
def parseEffectValue (itr : Itr) (valuePair : Pair) : Except Error Itr :=
  match Effect.fromStr valuePair.text with
  | .ok effect => .ok { itr with effect := effect }
  | .error error => .error (.ParseItrEffect valuePair error)

/-- Rust `Itr::parse_catching_act_value`. -/
def parseCatchingActValue (itr : Itr) (valuePair : Pair) : Except Error Itr :=
  (parseIntValue parseIsize "catching_act" valuePair).map fun catchingAct =>
    { itr with catchingAct := catchingAct }

/-- Rust `Itr::parse_caught_act_value`. -/
def parseCaughtActValue (itr : Itr) (valuePair : Pair) : Except Error Itr :=
  (parseIntValue parseIsize "caught_act" valuePair).map fun caughtAct =>
    { itr with caughtAct := caughtAct }

/-- Rust `Itr::parse_tag_value`. -/
def parseTagValue (itr : Itr) (itrTagPair : Pair) : Except Error Itr :=
  match itrTagPair.rule with
  | .TagKind => ObjectDataParser.parseValue itr itrTagPair parseKindValue
  | .TagX => ObjectDataParser.parseValue itr itrTagPair parseXValue
  | .TagY => ObjectDataParser.parseValue itr itrTagPair parseYValue
  | .TagW => ObjectDataParser.parseValue itr itrTagPair parseWValue
  | .TagH => ObjectDataParser.parseValue itr itrTagPair parseHValue
  | .TagZWidth => ObjectDataParser.parseValue itr itrTagPair parseZWidthValue
  | .TagDVx => ObjectDataParser.parseValue itr itrTagPair parseDVxValue
  | .TagDVy => ObjectDataParser.parseValue itr itrTagPair parseDVyValue
  | .TagARest => ObjectDataParser.parseValue itr itrTagPair parseARestValue
  | .TagVRest => ObjectDataParser.parseValue itr itrTagPair parseVRestValue
  | .TagFall => ObjectDataParser.parseValue itr itrTagPair parseFallValue
  | .TagBDefend => ObjectDataParser.parseValue itr itrTagPair parseBDefendValue
  | .TagInjury => ObjectDataParser.parseValue itr itrTagPair parseInjuryValue
  | .TagEffect => ObjectDataParser.parseValue itr itrTagPair parseEffectValue
  | .TagCatchingAct =>
    ObjectDataParser.parseValue itr itrTagPair parseCatchingActValue
  | .TagCaughtAct =>
    ObjectDataParser.parseValue itr itrTagPair parseCaughtActValue
  | _ => .ok itr

/-- Rust `Itr::parse_tag`. -/
def parseTag (itr : Itr) (itrTagPair : Pair) : Except Error Itr :=
  ObjectDataParser.parseAsType itr itrTagPair .ItrTag [parseTagValue]

/-- Rust `Itr::parse_tags`. -/
def parseTags (itr : Itr) (itrDataPair : Pair) : Except Error Itr :=
  tryFold parseTag itr itrDataPair.children

/-- Rust `TryFrom<Pair> for Itr`. -/
def tryFrom (pair : Pair) : Except Error Itr :=
  ObjectDataParser.parseAsType Itr.default pair .Itr [parseTags]

end Itr

/-! ## `Element` dispatch (`element.rs`) -/

namespace Element

/-- Rust `Element::parse_element` (`element.rs` lines 40–65): dispatch on the inner
child's rule.  `CPoint`, `Itr` and `OPoint` are commented out in this snapshot
and return the accumulator unchanged; unknown kinds are a grammar error. -/
def parseElement (element : Option Element) (elementPair : Pair) :
    Except Error (Option Element) :=
  match elementPair.rule with
  | .Bdy =>
    match Bdy.tryFrom elementPair with
    | .ok bdy => .ok (element.or (some (.Bdy bdy)))
    | .error e => .error e
  | .BPoint =>
    match BPoint.tryFrom elementPair with
    | .ok bPoint => .ok (element.or (some (.BPoint bPoint)))
    | .error e => .error e
  | .WPoint =>
    match WPoint.tryFrom elementPair with
    | .ok wPoint => .ok (element.or (some (.WPoint wPoint)))
    | .error e => .error e
  | .CPoint | .Itr | .OPoint => .ok element
  | _ =>
    .error
      (.Grammar [.Bdy, .BPoint, .CPoint, .Itr, .OPoint, .WPoint]
        (some elementPair))

/-- Rust `TryFrom<Pair> for Element` (`element.rs` lines 68–77): walk the node with
`parse_element`, then fail with `ElementBuildNone` if no element was built. -/
def tryFrom (pair : Pair) : Except Error Element :=
  match ObjectDataParser.parseAsType none pair .Element [parseElement] with
  | .error e => .error e
  | .ok (some element) => .ok element
  | .ok none => .error (.ElementBuildNone pair)

end Element

/-! ## `Frame` parsing (`frame.rs`) -/

/-- Rust `FrameBuilder` (generated by `derive_builder` for `Frame`): every field is
optional while building; fields without `#[builder(default)]` must be set
before `build()` succeeds. -/
structure FrameBuilder where
  number : Option FrameNumber := none
  name : Option String := none
  centerX : Option Int := none
  centerY : Option Int := none
  dVx : Option Int := none
  dVy : Option Int := none
  dVz : Option Int := none
  hitA : Option FrameNumberNext := none
  hitD : Option FrameNumberNext := none
  hitDa : Option FrameNumberNext := none
  hitDj : Option FrameNumberNext := none
  hitFa : Option FrameNumberNext := none
  hitFj : Option FrameNumberNext := none
  hitJ : Option FrameNumberNext := none
  hitJa : Option FrameNumberNext := none
  hitUa : Option FrameNumberNext := none
  hitUj : Option FrameNumberNext := none
  mp : Option Int := none
  nextFrame : Option FrameNumberNext := none
  pic : Option Pic := none
  sound : Option (Option String) := none
  state : Option State := none
  wait : Option Wait := none
  deriving DecidableEq, Repr

/-- Rust `FrameBuilder::default()`. -/
def FrameBuilder.default : FrameBuilder := {}

/-- The `derive_builder` "field was never set" failure: `build()` errors with
the first unset required field's name. -/
def requireField {α : Type} (o : Option α) (field : String) : Except Error α :=
  match o with
  | some a => .ok a
  | none => .error (.DataBuildFailed field)

/-- Rust `FrameBuilder::build()`: fields marked `#[builder(default)]` (`hit_*`,
`mp`, `sound`, `wait`) fall back to their defaults; the remaining fields must
have been set, else the build fails naming the first unset field. -/
def FrameBuilder.build (b : FrameBuilder) : Except Error Frame := do
  let number ← requireField b.number "number"
  let name ← requireField b.name "name"
  let centerX ← requireField b.centerX "center_x"
  let centerY ← requireField b.centerY "center_y"
  let dVx ← requireField b.dVx "d_vx"
  let dVy ← requireField b.dVy "d_vy"
  let dVz ← requireField b.dVz "d_vz"
  let nextFrame ← requireField b.nextFrame "next_frame"
  let pic ← requireField b.pic "pic"
  let state ← requireField b.state "state"
  .ok
    { number := number, name := name, centerX := centerX, centerY := centerY
      dVx := dVx, dVy := dVy, dVz := dVz
      hitA := b.hitA.getD 0, hitD := b.hitD.getD 0, hitDa := b.hitDa.getD 0
      hitDj := b.hitDj.getD 0, hitFa := b.hitFa.getD 0
      hitFj := b.hitFj.getD 0, hitJ := b.hitJ.getD 0, hitJa := b.hitJa.getD 0
      hitUa := b.hitUa.getD 0, hitUj := b.hitUj.getD 0
      mp := b.mp.getD 0, nextFrame := nextFrame, pic := pic
      sound := b.sound.getD none, state := state
      wait := b.wait.getD WAIT_DEFAULT }

namespace Frame

/-- Rust `Frame::parse_number_value` (field `frame number`, a `usize`). -/
def parseNumberValue (b : FrameBuilder) (valuePair : Pair) :
    Except Error FrameBuilder :=
  (parseNatValue parseUsize "frame number" valuePair).map fun number =>
    { b with number := some number }

/-- Rust `Frame::parse_number`. -/
def parseNumber (b : FrameBuilder) (frameNumberPair : Pair) :
    Except Error FrameBuilder :=
  ObjectDataParser.parseAsType b frameNumberPair .FrameNumber [parseNumberValue]

/-- Rust `Frame::parse_name_value`. -/
def parseNameValue (b : FrameBuilder) (valuePair : Pair) :
    Except Error FrameBuilder :=
  .ok { b with name := some valuePair.text }

/-- Rust `Frame::parse_name`. -/
def parseName (b : FrameBuilder) (frameNamePair : Pair) :
    Except Error FrameBuilder :=
  ObjectDataParser.parseAsType b frameNamePair .FrameName [parseNameValue]

/-- Rust `Frame::parse_center_x_value` (field `centerx`, an `i64`). -/
def parseCenterXValue (b : FrameBuilder) (valuePair : Pair) :
    Except Error FrameBuilder :=
  (parseIntValue parseI64 "centerx" valuePair).map fun centerX =>
    { b with centerX := some centerX }

/-- Rust `Frame::parse_center_x`. -/
def parseCenterX (b : FrameBuilder) (centerXPair : Pair) :
    Except Error FrameBuilder :=
  ObjectDataParser.parseAsType b centerXPair .TagCenterX [parseCenterXValue]

/-- Rust `Frame::parse_center_y_value` (field `centery`). -/
def parseCenterYValue (b : FrameBuilder) (valuePair : Pair) :
    Except Error FrameBuilder :=
  (parseIntValue parseI64 "centery" valuePair).map fun centerY =>
    { b with centerY := some centerY }

/-- Rust `Frame::parse_center_y`. -/
def parseCenterY (b : FrameBuilder) (centerYPair : Pair) :
    Except Error FrameBuilder :=
  ObjectDataParser.parseAsType b centerYPair .TagCenterY [parseCenterYValue]

/-- Rust `Frame::parse_d_vx_value` (field `dvx`). -/
def parseDVxValue (b : FrameBuilder) (valuePair : Pair) :
    Except Error FrameBuilder :=
  (parseIntValue parseI64 "dvx" valuePair).map fun dVx =>
    { b with dVx := some dVx }

/-- Rust `Frame::parse_d_vx`. -/
def parseDVx (b : FrameBuilder) (dVxPair : Pair) : Except Error FrameBuilder :=
  ObjectDataParser.parseAsType b dVxPair .TagDVx [parseDVxValue]

/-- Rust `Frame::parse_d_vy_value` (field `dvy`). -/
def parseDVyValue (b : FrameBuilder) (valuePair : Pair) :
    Except Error FrameBuilder :=
  (parseIntValue parseI64 "dvy" valuePair).map fun dVy =>
    { b with dVy := some dVy }

/-- Rust `Frame::parse_d_vy`. -/
def parseDVy (b : FrameBuilder) (dVyPair : Pair) : Except Error FrameBuilder :=
  ObjectDataParser.parseAsType b dVyPair .TagDVy [parseDVyValue]

/-- Rust `Frame::parse_d_vz_value` (field `dvz`). -/
def parseDVzValue (b : FrameBuilder) (valuePair : Pair) :
    Except Error FrameBuilder :=
  (parseIntValue parseI64 "dvz" valuePair).map fun dVz =>
    { b with dVz := some dVz }

/-- Rust `Frame::parse_d_vz`. -/
def parseDVz (b : FrameBuilder) (dVzPair : Pair) : Except Error FrameBuilder :=
  ObjectDataParser.parseAsType b dVzPair .TagDVz [parseDVzValue]

/-- Rust `Frame::parse_hit_a_value` (field `hit_a`, a `FrameNumberNext`). -/
def parseHitAValue (b : FrameBuilder) (valuePair : Pair) :
    Except Error FrameBuilder :=
  (parseIntValue parseIsize "hit_a" valuePair).map fun hitA =>
    { b with hitA := some hitA }

/-- Rust `Frame::parse_hit_a`. -/
def parseHitA (b : FrameBuilder) (hitAPair : Pair) : Except Error FrameBuilder :=
  ObjectDataParser.parseAsType b hitAPair .TagHitA [parseHitAValue]

/-- Rust `Frame::parse_hit_d_value` (field `hit_d`). -/
def parseHitDValue (b : FrameBuilder) (valuePair : Pair) :
    Except Error FrameBuilder :=
  (parseIntValue parseIsize "hit_d" valuePair).map fun hitD =>
    { b with hitD := some hitD }

/-- Rust `Frame::parse_hit_d`. -/
def parseHitD (b : FrameBuilder) (hitDPair : Pair) : Except Error FrameBuilder :=
  ObjectDataParser.parseAsType b hitDPair .TagHitD [parseHitDValue]

/-- Rust `Frame::parse_hit_da_value` (field `hit_Da`). -/
def parseHitDaValue (b : FrameBuilder) (valuePair : Pair) :
    Except Error FrameBuilder :=
  (parseIntValue parseIsize "hit_Da" valuePair).map fun hitDa =>
    { b with hitDa := some hitDa }

/-- Rust `Frame::parse_hit_da`. -/
def parseHitDa (b : FrameBuilder) (hitDaPair : Pair) :
    Except Error FrameBuilder :=
  ObjectDataParser.parseAsType b hitDaPair .TagHitDa [parseHitDaValue]

/-- Rust `Frame::parse_hit_dj_value` (field `hit_Dj`). -/
def parseHitDjValue (b : FrameBuilder) (valuePair : Pair) :
    Except Error FrameBuilder :=
  (parseIntValue parseIsize "hit_Dj" valuePair).map fun hitDj =>
    { b with hitDj := some hitDj }

/-- Rust `Frame::parse_hit_dj`. -/
def parseHitDj (b : FrameBuilder) (hitDjPair : Pair) :
    Except Error FrameBuilder :=
  ObjectDataParser.parseAsType b hitDjPair .TagHitDj [parseHitDjValue]

/-- Rust `Frame::parse_hit_fa_value` (field `hit_Fa`). -/
def parseHitFaValue (b : FrameBuilder) (valuePair : Pair) :
    Except Error FrameBuilder :=
  (parseIntValue parseIsize "hit_Fa" valuePair).map fun hitFa =>
    { b with hitFa := some hitFa }

/-- Rust `Frame::parse_hit_fa`. -/
def parseHitFa (b : FrameBuilder) (hitFaPair : Pair) :
    Except Error FrameBuilder :=
  ObjectDataParser.parseAsType b hitFaPair .TagHitFa [parseHitFaValue]

/-- Rust `Frame::parse_hit_fj_value` (field `hit_Fj`). -/
def parseHitFjValue (b : FrameBuilder) (valuePair : Pair) :
    Except Error FrameBuilder :=
  (parseIntValue parseIsize "hit_Fj" valuePair).map fun hitFj =>
    { b with hitFj := some hitFj }

/-- Rust `Frame::parse_hit_fj`. -/
def parseHitFj (b : FrameBuilder) (hitFjPair : Pair) :
    Except Error FrameBuilder :=
  ObjectDataParser.parseAsType b hitFjPair .TagHitFj [parseHitFjValue]

/-- Rust `Frame::parse_hit_j_value` (field `hit_j`). -/
def parseHitJValue (b : FrameBuilder) (valuePair : Pair) :
    Except Error FrameBuilder :=
  (parseIntValue parseIsize "hit_j" valuePair).map fun hitJ =>
    { b with hitJ := some hitJ }

/-- Rust `Frame::parse_hit_j`. -/
def parseHitJ (b : FrameBuilder) (hitJPair : Pair) : Except Error FrameBuilder :=
  ObjectDataParser.parseAsType b hitJPair .TagHitJ [parseHitJValue]

/-- Rust `Frame::parse_hit_ja_value` (field `hit_ja`). -/
def parseHitJaValue (b : FrameBuilder) (valuePair : Pair) :
    Except Error FrameBuilder :=
  (parseIntValue parseIsize "hit_ja" valuePair).map fun hitJa =>
    { b with hitJa := some hitJa }

/-- Rust `Frame::parse_hit_ja`. -/
def parseHitJa (b : FrameBuilder) (hitJaPair : Pair) :
    Except Error FrameBuilder :=
  ObjectDataParser.parseAsType b hitJaPair .TagHitJa [parseHitJaValue]

/-- Rust `Frame::parse_hit_ua_value` (field `hit_ua`). -/
def parseHitUaValue (b : FrameBuilder) (valuePair : Pair) :
    Except Error FrameBuilder :=
  (parseIntValue parseIsize "hit_ua" valuePair).map fun hitUa =>
    { b with hitUa := some hitUa }

/-- Rust `Frame::parse_hit_ua`. -/
def parseHitUa (b : FrameBuilder) (hitUaPair : Pair) :
    Except Error FrameBuilder :=
  ObjectDataParser.parseAsType b hitUaPair .TagHitUa [parseHitUaValue]

/-- Rust `Frame::parse_hit_uj_value` (field `hit_uj`). -/
def parseHitUjValue (b : FrameBuilder) (valuePair : Pair) :
    Except Error FrameBuilder :=
  (parseIntValue parseIsize "hit_uj" valuePair).map fun hitUj =>
    { b with hitUj := some hitUj }

/-- Rust `Frame::parse_hit_uj`. -/
def parseHitUj (b : FrameBuilder) (hitUjPair : Pair) :
    Except Error FrameBuilder :=
  ObjectDataParser.parseAsType b hitUjPair .TagHitUj [parseHitUjValue]

/-- Rust `Frame::parse_mp_value` (field `mp`, an `i64`). -/
def parseMpValue (b : FrameBuilder) (valuePair : Pair) :
    Except Error FrameBuilder :=
  (parseIntValue parseI64 "mp" valuePair).map fun mp => { b with mp := some mp }

/-- Rust `Frame::parse_mp`. -/
def parseMp (b : FrameBuilder) (mpPair : Pair) : Except Error FrameBuilder :=
  ObjectDataParser.parseAsType b mpPair .TagMp [parseMpValue]

/-- Rust `Frame::parse_next_frame_value` (field `next`, a `FrameNumberNext`). -/
def parseNextFrameValue (b : FrameBuilder) (valuePair : Pair) :
    Except Error FrameBuilder :=
  (parseIntValue parseIsize "next" valuePair).map fun nextFrame =>
    { b with nextFrame := some nextFrame }

/-- Rust `Frame::parse_next_frame`. -/
def parseNextFrame (b : FrameBuilder) (nextFramePair : Pair) :
    Except Error FrameBuilder :=
  ObjectDataParser.parseAsType b nextFramePair .TagNext [parseNextFrameValue]

/-- Rust `Frame::parse_pic_value` (field `pic`, a `Pic`). -/
def parsePicValue (b : FrameBuilder) (valuePair : Pair) :
    Except Error FrameBuilder :=
  (parseIntValue parseIsize "pic" valuePair).map fun pic =>
    { b with pic := some pic }

/-- Rust `Frame::parse_pic`. -/
def parsePic (b : FrameBuilder) (picPair : Pair) : Except Error FrameBuilder :=
  ObjectDataParser.parseAsType b picPair .TagPic [parsePicValue]

/-- Rust `Frame::parse_sound_value`: `PathBuf::from_str` is infallible, so the
`ParsePath` error arm is unreachable. -/
def parseSoundValue (b : FrameBuilder) (valuePair : Pair) :
    Except Error FrameBuilder :=
  .ok { b with sound := some (some valuePair.text) }

/-- Rust `Frame::parse_sound`. -/
def parseSound (b : FrameBuilder) (soundPair : Pair) :
    Except Error FrameBuilder :=
  ObjectDataParser.parseAsType b soundPair .TagSound [parseSoundValue]

/-- Rust `Frame::parse_state_value`. -/
def parseStateValue (b : FrameBuilder) (valuePair : Pair) :
    Except Error FrameBuilder :=
  match State.fromStr valuePair.text with
  | .ok state => .ok { b with state := some state }
  | .error error => .error (.StateParse valuePair error)

/-- Rust `Frame::parse_state`. -/
def parseState (b : FrameBuilder) (statePair : Pair) :
    Except Error FrameBuilder :=
  ObjectDataParser.parseAsType b statePair .TagState [parseStateValue]

/-- Rust `Frame::parse_wait_value` (field `wait`, a `Wait`). -/
def parseWaitValue (b : FrameBuilder) (valuePair : Pair) :
    Except Error FrameBuilder :=
  match waitFromStr valuePair.text with
  | some wait => .ok { b with wait := some wait }
  | none => .error (.ParseInt "wait" valuePair .parseIntError)

/-- Rust `Frame::parse_wait`. -/
def parseWait (b : FrameBuilder) (waitPair : Pair) : Except Error FrameBuilder :=
  ObjectDataParser.parseAsType b waitPair .TagWait [parseWaitValue]

/-- Rust `Frame::parse_tag_value` (`frame.rs` lines 134–205): dispatch on the tag's
rule; unknown tags are ignored. -/
def parseTagValue (b : FrameBuilder) (frameTagPair : Pair) :
    Except Error FrameBuilder :=
  match frameTagPair.rule with
  | .TagCenterX => parseCenterX b frameTagPair
  | .TagCenterY => parseCenterY b frameTagPair
  | .TagDVx => parseDVx b frameTagPair
  | .TagDVy => parseDVy b frameTagPair
  | .TagDVz => parseDVz b frameTagPair
  | .TagHitA => parseHitA b frameTagPair
  | .TagHitD => parseHitD b frameTagPair
  | .TagHitDa => parseHitDa b frameTagPair
  | .TagHitDj => parseHitDj b frameTagPair
  | .TagHitFa => parseHitFa b frameTagPair
  | .TagHitFj => parseHitFj b frameTagPair
  | .TagHitJ => parseHitJ b frameTagPair
  | .TagHitJa => parseHitJa b frameTagPair
  | .TagHitUa => parseHitUa b frameTagPair
  | .TagHitUj => parseHitUj b frameTagPair
  | .TagMp => parseMp b frameTagPair
  | .TagNext => parseNextFrame b frameTagPair
  | .TagPic => parsePic b frameTagPair
  | .TagSound => parseSound b frameTagPair
  | .TagState => parseState b frameTagPair
  | .TagWait => parseWait b frameTagPair
  | _ => .ok b

/-- Rust `Frame::parse_tag`. -/
def parseTag (b : FrameBuilder) (frameTagPair : Pair) :
    Except Error FrameBuilder :=
  ObjectDataParser.parseAsType b frameTagPair .FrameTag [parseTagValue]

/-- The body of the `try_fold` in `Frame::parse_data` (`frame.rs` lines
104–119): a `FrameTag` child updates the builder; an `Element` child is left
unimplemented (`TODO: implement`) and returns the builder unchanged; anything
else is a grammar error. -/
def parseTagOrElement (b : FrameBuilder) (pair : Pair) :
    Except Error FrameBuilder :=
  match pair.rule with
  | .FrameTag => parseTag b pair
  | .Element => .ok b
  | _ => .error (.Grammar [.FrameTag] (some pair))

/-- Rust `Frame::parse_data` (`frame.rs` lines 100–120). -/
def parseData (b : FrameBuilder) (frameDataPair : Pair) :
    Except Error FrameBuilder :=
  tryFold parseTagOrElement b frameDataPair.children

/-- Rust `TryFrom<Pair> for Frame` (`frame.rs` lines 791–803). -/
def tryFrom (pair : Pair) : Except Error Frame :=
  match ObjectDataParser.parseAsType FrameBuilder.default pair .Frame
      [parseNumber, parseName, parseData] with
  | .ok builder => builder.build
  | .error e => .error e

end Frame

/-! ## `Frames` parsing and validation (`frames.rs`) -/

namespace Frames

/-- Rust `Frames::parse_frame` (`frames.rs` lines 23–34): try to parse the child as
a `Frame`; on success push both the pair and the frame, on failure return the
accumulator unchanged (the parse error is discarded). -/
def parseFrame (acc : List Pair × Frames) (framePair : Pair) :
    Except Error (List Pair × Frames) :=
  match Frame.tryFrom framePair with
  | .ok frame => .ok (acc.1 ++ [framePair], acc.2 ++ [frame])
  | .error _ => .ok acc

/-- Indices of the frames carrying frame number `d`, in ascending order (the
per-number index list built by the `BTreeMap` fold in `Frames::validate`). -/
def numberIndices (frames : Frames) (d : FrameNumber) : List Nat :=
  (List.range frames.length).filter fun i =>
    (frames.get? i).map Frame.number = some d

/-- The frame numbers that occur more than once. -/
def duplicateNumbers (frames : Frames) : List FrameNumber :=
  (frames.map Frame.number).filter fun d =>
    2 ≤ (frames.map Frame.number).count d

/-- Rust `Frames::validate` (`frames.rs` lines 36–68): group frame indices by
frame number (`BTreeMap`, so iteration is in ascending key order), `find` the
first number with more than one index, and error with the pairs of all its
occurrences; otherwise return the frames. -/
def validate (framePairs : List Pair) (frames : Frames) : Except Error Frames :=
  match (duplicateNumbers frames).min? with
  | some frameNumber =>
    .error
      (.FrameNumberNonUnique frameNumber
        ((numberIndices frames frameNumber).filterMap framePairs.get?))
  | none => .ok frames

/-- Rust `TryFrom<Pair> for Frames` (`frames.rs` lines 85–99): the source calls
`parse_as_type` with `Iterator::cycle` over the single `parse_frame` sub-rule
function, so every child pair is processed by `parse_frame`; then validate. -/
def tryFrom (pair : Pair) : Except Error Frames :=
  if pair.rule = .Frames then
    match tryFold parseFrame ([], []) pair.children with
    | .ok acc => validate acc.1 acc.2
    | .error e => .error e
  else
    .error (.GrammarSingle .Frames (some pair))

end Frames

/-! ## `SpriteFile` parsing (`sprite_file.rs`) -/

/-- Rust `SpriteFileBuilder`. -/
structure SpriteFileBuilder where
  path : Option String := none
  w : Option Nat := none
  h : Option Nat := none
  row : Option Nat := none
  col : Option Nat := none
  deriving DecidableEq, Repr

/-- Rust `SpriteFileBuilder::build()`. -/
def SpriteFileBuilder.build (b : SpriteFileBuilder) : Except Error SpriteFile := do
  let path ← requireField b.path "path"
  let w ← requireField b.w "w"
  let h ← requireField b.h "h"
  let row ← requireField b.row "row"
  let col ← requireField b.col "col"
  .ok { path := path, w := w, h := h, row := row, col := col }

namespace SpriteFile

/-- Rust `SpriteFile::parse_path_value` (`PathBuf` parsing is infallible). -/
def parsePathValue (b : SpriteFileBuilder) (valuePair : Pair) :
    Except Error SpriteFileBuilder :=
  .ok { b with path := some valuePair.text }

/-- Rust `SpriteFile::parse_path`. -/
def parsePath (b : SpriteFileBuilder) (pathPair : Pair) :
    Except Error SpriteFileBuilder :=
  ObjectDataParser.parseAsType b pathPair .TagFileValue [parsePathValue]

/-- Rust `SpriteFile::parse_w_value`. -/
def parseWValue (b : SpriteFileBuilder) (valuePair : Pair) :
    Except Error SpriteFileBuilder :=
  (parseNatValue parseU32 "w" valuePair).map fun w => { b with w := some w }

/-- Rust `SpriteFile::parse_w`. -/
def parseW (b : SpriteFileBuilder) (wPair : Pair) :
    Except Error SpriteFileBuilder :=
  ObjectDataParser.parseAsType b wPair .TagW [parseWValue]

/-- Rust `SpriteFile::parse_h_value`. -/
def parseHValue (b : SpriteFileBuilder) (valuePair : Pair) :
    Except Error SpriteFileBuilder :=
  (parseNatValue parseU32 "h" valuePair).map fun h => { b with h := some h }

/-- Rust `SpriteFile::parse_h`. -/
def parseH (b : SpriteFileBuilder) (hPair : Pair) :
    Except Error SpriteFileBuilder :=
  ObjectDataParser.parseAsType b hPair .TagH [parseHValue]

/-- Rust `SpriteFile::parse_row_value`. -/
def parseRowValue (b : SpriteFileBuilder) (valuePair : Pair) :
    Except Error SpriteFileBuilder :=
  (parseNatValue parseU32 "row" valuePair).map fun row => { b with row := some row }

/-- Rust `SpriteFile::parse_row`. -/
def parseRow (b : SpriteFileBuilder) (rowPair : Pair) :
    Except Error SpriteFileBuilder :=
  ObjectDataParser.parseAsType b rowPair .TagRow [parseRowValue]

/-- Rust `SpriteFile::parse_col_value`. -/
def parseColValue (b : SpriteFileBuilder) (valuePair : Pair) :
    Except Error SpriteFileBuilder :=
  (parseNatValue parseU32 "col" valuePair).map fun col => { b with col := some col }

/-- Rust `SpriteFile::parse_col`. -/
def parseCol (b : SpriteFileBuilder) (colPair : Pair) :
    Except Error SpriteFileBuilder :=
  ObjectDataParser.parseAsType b colPair .TagCol [parseColValue]

/-- Rust `TryFrom<Pair> for SpriteFile`. -/
def tryFrom (pair : Pair) : Except Error SpriteFile :=
  match ObjectDataParser.parseAsType {} pair .SpriteFile
      [parsePath, parseW, parseH, parseRow, parseCol] with
  | .ok builder => builder.build
  | .error e => .error e

end SpriteFile

/-! ## `Header` parsing (`header.rs`) -/

/-- Rust `HeaderBuilder`: every `Header` field is required. -/
structure HeaderBuilder where
  name : Option String := none
  head : Option String := none
  small : Option String := none
  file : Option (List SpriteFile) := none
  walkingFrameRate : Option Nat := none
  walkingSpeed : Option Rat := none
  walkingSpeedZ : Option Rat := none
  runningFrameRate : Option Nat := none
  runningSpeed : Option Rat := none
  runningSpeedZ : Option Rat := none
  heavyWalkingSpeed : Option Rat := none
  heavyWalkingSpeedZ : Option Rat := none
  heavyRunningSpeed : Option Rat := none
  heavyRunningSpeedZ : Option Rat := none
  jumpHeight : Option Rat := none
  jumpDistance : Option Rat := none
  jumpDistanceZ : Option Rat := none
  dashHeight : Option Rat := none
  dashDistance : Option Rat := none
  dashDistanceZ : Option Rat := none
  rowingHeight : Option Rat := none
  rowingDistance : Option Rat := none
  deriving DecidableEq, Repr

/-- Rust `HeaderBuilder::build()`. -/
def HeaderBuilder.build (b : HeaderBuilder) : Except Error Header := do
  let name ← requireField b.name "name"
  let head ← requireField b.head "head"
  let small ← requireField b.small "small"
  let file ← requireField b.file "file"
  let walkingFrameRate ← requireField b.walkingFrameRate "walking_frame_rate"
  let walkingSpeed ← requireField b.walkingSpeed "walking_speed"
  let walkingSpeedZ ← requireField b.walkingSpeedZ "walking_speed_z"
  let runningFrameRate ← requireField b.runningFrameRate "running_frame_rate"
  let runningSpeed ← requireField b.runningSpeed "running_speed"
  let runningSpeedZ ← requireField b.runningSpeedZ "running_speed_z"
  let heavyWalkingSpeed ← requireField b.heavyWalkingSpeed "heavy_walking_speed"
  let heavyWalkingSpeedZ ←
    requireField b.heavyWalkingSpeedZ "heavy_walking_speed_z"
  let heavyRunningSpeed ← requireField b.heavyRunningSpeed "heavy_running_speed"
  let heavyRunningSpeedZ ←
    requireField b.heavyRunningSpeedZ "heavy_running_speed_z"
  let jumpHeight ← requireField b.jumpHeight "jump_height"
  let jumpDistance ← requireField b.jumpDistance "jump_distance"
  let jumpDistanceZ ← requireField b.jumpDistanceZ "jump_distance_z"
  let dashHeight ← requireField b.dashHeight "dash_height"
  let dashDistance ← requireField b.dashDistance "dash_distance"
  let dashDistanceZ ← requireField b.dashDistanceZ "dash_distance_z"
  let rowingHeight ← requireField b.rowingHeight "rowing_height"
  let rowingDistance ← requireField b.rowingDistance "rowing_distance"
  .ok
    { name := name, head := head, small := small, file := file
      walkingFrameRate := walkingFrameRate, walkingSpeed := walkingSpeed
      walkingSpeedZ := walkingSpeedZ, runningFrameRate := runningFrameRate
      runningSpeed := runningSpeed, runningSpeedZ := runningSpeedZ
      heavyWalkingSpeed := heavyWalkingSpeed
      heavyWalkingSpeedZ := heavyWalkingSpeedZ
      heavyRunningSpeed := heavyRunningSpeed
      heavyRunningSpeedZ := heavyRunningSpeedZ
      jumpHeight := jumpHeight, jumpDistance := jumpDistance
      jumpDistanceZ := jumpDistanceZ, dashHeight := dashHeight
      dashDistance := dashDistance, dashDistanceZ := dashDistanceZ
      rowingHeight := rowingHeight, rowingDistance := rowingDistance }

/-- The repeated `parse as f32 with field-name context` pattern in
`header.rs`. -/
def parseRatValue (field : String) (valuePair : Pair) : Except Error Rat :=
  match parseF32 valuePair.text with
  | some v => .ok v
  | none => .error (.ParseFloat field valuePair .parseFloatError)

namespace Header

/-- Rust `Header::parse_name_value`. -/
def parseNameValue (b : HeaderBuilder) (valuePair : Pair) :
    Except Error HeaderBuilder :=
  .ok { b with name := some valuePair.text }

/-- Rust `Header::parse_name`. -/
def parseName (b : HeaderBuilder) (headerTagPair : Pair) :
    Except Error HeaderBuilder :=
  ObjectDataParser.parseAsType b headerTagPair .TagName [parseNameValue]

/-- Rust `Header::parse_head_value` (`PathBuf` parsing is infallible; the source's
`ParsePath` arm even carries the copy-pasted field name
`walking_frame_rate`). -/
def parseHeadValue (b : HeaderBuilder) (valuePair : Pair) :
    Except Error HeaderBuilder :=
  .ok { b with head := some valuePair.text }

/-- Rust `Header::parse_head`. -/
def parseHead (b : HeaderBuilder) (headerTagPair : Pair) :
    Except Error HeaderBuilder :=
  ObjectDataParser.parseAsType b headerTagPair .TagHead [parseHeadValue]

/-- Rust `Header::parse_small_value`. -/
def parseSmallValue (b : HeaderBuilder) (valuePair : Pair) :
    Except Error HeaderBuilder :=
  .ok { b with small := some valuePair.text }

/-- Rust `Header::parse_small`. -/
def parseSmall (b : HeaderBuilder) (headerTagPair : Pair) :
    Except Error HeaderBuilder :=
  ObjectDataParser.parseAsType b headerTagPair .TagSmall [parseSmallValue]

/-- Rust `Header::parse_walking_frame_rate_value`. -/
def parseWalkingFrameRateValue (b : HeaderBuilder) (valuePair : Pair) :
    Except Error HeaderBuilder :=
  (parseNatValue parseU32 "walking_frame_rate" valuePair).map fun v =>
    { b with walkingFrameRate := some v }

/-- Rust `Header::parse_walking_frame_rate`. -/
def parseWalkingFrameRate (b : HeaderBuilder) (headerTagPair : Pair) :
    Except Error HeaderBuilder :=
  ObjectDataParser.parseAsType b headerTagPair .TagWalkingFrameRate
    [parseWalkingFrameRateValue]

/-- Rust `Header::parse_running_frame_rate_value`. -/
def parseRunningFrameRateValue (b : HeaderBuilder) (valuePair : Pair) :
    Except Error HeaderBuilder :=
  (parseNatValue parseU32 "running_frame_rate" valuePair).map fun v =>
    { b with runningFrameRate := some v }

/-- Rust `Header::parse_running_frame_rate`. -/
def parseRunningFrameRate (b : HeaderBuilder) (headerTagPair : Pair) :
    Except Error HeaderBuilder :=
  ObjectDataParser.parseAsType b headerTagPair .TagRunningFrameRate
    [parseRunningFrameRateValue]

/-- The float header tags, each `parse_X` / `parse_X_value` pair in
`header.rs` following the identical shape: expected rule, field name, and the
builder-field update. -/
def parseFloatTag (rule : Rule) (field : String)
    (set : HeaderBuilder → Rat → HeaderBuilder) (b : HeaderBuilder)
    (headerTagPair : Pair) : Except Error HeaderBuilder :=
  ObjectDataParser.parseAsType b headerTagPair rule
    [fun b valuePair => (parseRatValue field valuePair).map (set b)]

/-- Rust `Header::parse_tag_value` (`header.rs` lines 57–136). -/
def parseTagValue (b : HeaderBuilder) (headerTagPair : Pair) :
    Except Error HeaderBuilder :=
  match headerTagPair.rule with
  | .TagName => parseName b headerTagPair
  | .TagHead => parseHead b headerTagPair
  | .TagSmall => parseSmall b headerTagPair
  | .SpriteFile =>
    match SpriteFile.tryFrom headerTagPair with
    | .ok file =>
      match b.file with
      | some files => .ok { b with file := some (files ++ [file]) }
      | none => .ok { b with file := some [file] }
    | .error e => .error e
  | .TagWalkingFrameRate => parseWalkingFrameRate b headerTagPair
  | .TagWalkingSpeed =>
    parseFloatTag .TagWalkingSpeed "walking_speed"
      (fun b v => { b with walkingSpeed := some v }) b headerTagPair
  | .TagWalkingSpeedZ =>
    parseFloatTag .TagWalkingSpeedZ "walking_speed_z"
      (fun b v => { b with walkingSpeedZ := some v }) b headerTagPair
  | .TagRunningFrameRate => parseRunningFrameRate b headerTagPair
  | .TagRunningSpeed =>
    parseFloatTag .TagRunningSpeed "running_speed"
      (fun b v => { b with runningSpeed := some v }) b headerTagPair
  | .TagRunningSpeedZ =>
    parseFloatTag .TagRunningSpeedZ "running_speed_z"
      (fun b v => { b with runningSpeedZ := some v }) b headerTagPair
  | .TagHeavyWalkingSpeed =>
    parseFloatTag .TagHeavyWalkingSpeed "heavy_walking_speed"
      (fun b v => { b with heavyWalkingSpeed := some v }) b headerTagPair
  | .TagHeavyWalkingSpeedZ =>
    parseFloatTag .TagHeavyWalkingSpeedZ "heavy_walking_speed_z"
      (fun b v => { b with heavyWalkingSpeedZ := some v }) b headerTagPair
  | .TagHeavyRunningSpeed =>
    parseFloatTag .TagHeavyRunningSpeed "heavy_running_speed"
      (fun b v => { b with heavyRunningSpeed := some v }) b headerTagPair
  | .TagHeavyRunningSpeedZ =>
    parseFloatTag .TagHeavyRunningSpeedZ "heavy_running_speed_z"
      (fun b v => { b with heavyRunningSpeedZ := some v }) b headerTagPair
  | .TagJumpHeight =>
    parseFloatTag .TagJumpHeight "jump_height"
      (fun b v => { b with jumpHeight := some v }) b headerTagPair
  | .TagJumpDistance =>
    parseFloatTag .TagJumpDistance "jump_distance"
      (fun b v => { b with jumpDistance := some v }) b headerTagPair
  | .TagJumpDistanceZ =>
    parseFloatTag .TagJumpDistanceZ "jump_distance_z"
      (fun b v => { b with jumpDistanceZ := some v }) b headerTagPair
  | .TagDashHeight =>
    parseFloatTag .TagDashHeight "dash_height"
      (fun b v => { b with dashHeight := some v }) b headerTagPair
  | .TagDashDistance =>
    parseFloatTag .TagDashDistance "dash_distance"
      (fun b v => { b with dashDistance := some v }) b headerTagPair
  | .TagDashDistanceZ =>
    parseFloatTag .TagDashDistanceZ "dash_distance_z"
      (fun b v => { b with dashDistanceZ := some v }) b headerTagPair
  | .TagRowingHeight =>
    parseFloatTag .TagRowingHeight "rowing_height"
      (fun b v => { b with rowingHeight := some v }) b headerTagPair
  | .TagRowingDistance =>
    parseFloatTag .TagRowingDistance "rowing_distance"
      (fun b v => { b with rowingDistance := some v }) b headerTagPair
  | _ => .ok b

/-- Rust `Header::parse_tag`. -/
def parseTag (b : HeaderBuilder) (headerTagPair : Pair) :
    Except Error HeaderBuilder :=
  ObjectDataParser.parseAsType b headerTagPair .HeaderTag [parseTagValue]

/-- Rust `Header::parse_tags`. -/
def parseTags (b : HeaderBuilder) (headerDataPair : Pair) :
    Except Error HeaderBuilder :=
  tryFold parseTag b headerDataPair.children

/-- Rust `TryFrom<Pair> for Header` (`header.rs` lines 716–728). -/
def tryFrom (pair : Pair) : Except Error Header :=
  match ObjectDataParser.parseAsType {} pair .Header [parseTags] with
  | .ok builder => builder.build
  | .error e => .error e

end Header

/-! ## Top-level `ObjectData` parsing and file opening (`object_data.rs`) -/

/-- Strict UTF-8 decoding of a byte sequence (Rust's `String::from_utf8`):
continuation bytes must be `0x80..=0xBF`, with the restricted ranges after
`0xE0`/`0xED`/`0xF0`/`0xF4` that exclude surrogates and overlong forms. -/
def utf8DecodeChars : List Nat → Option (List Char)
  | [] => some []
  | b :: rest =>
    let cont : Nat → Bool := fun c => 0x80 ≤ c && c ≤ 0xBF
    if b ≤ 0x7F then
      (utf8DecodeChars rest).map (Char.ofNat b :: ·)
    else if 0xC2 ≤ b && b ≤ 0xDF then
      match rest with
      | b1 :: rest' =>
        if cont b1 then
          (utf8DecodeChars rest').map
            (Char.ofNat ((b - 0xC0) * 64 + (b1 - 0x80)) :: ·)
        else none
      | [] => none
    else if 0xE0 ≤ b && b ≤ 0xEF then
      match rest with
      | b1 :: b2 :: rest' =>
        let b1ok :=
          if b = 0xE0 then 0xA0 ≤ b1 && b1 ≤ 0xBF
          else if b = 0xED then 0x80 ≤ b1 && b1 ≤ 0x9F
          else cont b1
        if b1ok && cont b2 then
          (utf8DecodeChars rest').map
            (Char.ofNat ((b - 0xE0) * 4096 + (b1 - 0x80) * 64 + (b2 - 0x80)) :: ·)
        else none
      | _ => none
    else if 0xF0 ≤ b && b ≤ 0xF4 then
      match rest with
      | b1 :: b2 :: b3 :: rest' =>
        let b1ok :=
          if b = 0xF0 then 0x90 ≤ b1 && b1 ≤ 0xBF
          else if b = 0xF4 then 0x80 ≤ b1 && b1 ≤ 0x8F
          else cont b1
        if b1ok && cont b2 && cont b3 then
          (utf8DecodeChars rest').map
            (Char.ofNat
              ((b - 0xF0) * 262144 + (b1 - 0x80) * 4096 + (b2 - 0x80) * 64
                + (b3 - 0x80)) :: ·)
        else none
      | _ => none
    else none

/-- Rust `String::from_utf8`, returning the decoded string or `none`. -/
def utf8Decode (bytes : List Nat) : Option String :=
  (utf8DecodeChars bytes).map fun cs => ⟨cs⟩

/-- Model of `std::path::Path::extension`: the portion of the final path
component after its last `.`, or `none` when there is no `.` (or only a
leading one, as in a dot-file). -/
def pathExtension (path : String) : Option String :=
  let fileName := (splitOnChar '/' path.data).getLastD []
  match splitOnChar '.' fileName with
  | [] => none
  | [_] => none
  | first :: rest =>
    if first.isEmpty && rest.length = 1 then none
    else some ⟨rest.getLastD []⟩

namespace ObjectData

/-- Rust `ObjectData::open` (`object_data.rs` lines 25–54), modelled over the
opened file's bytes: `decode` is the external `lf2_codec::DataDecoder::decode`
collaborator, passed as a function; when the path's extension is `dat` the
bytes are decoded and then UTF-8-decoded (`Error::DecodedDataInvalidUtf8` on
failure), otherwise `read_to_string` reads them as UTF-8 directly (its
`io::Error` — including invalid UTF-8 — is mapped to `FileOpenError` by the
source). -/
def openData (decode : List Nat → Except DecodeError (List Nat))
    (path : String) (contents : List Nat) : Except Error String :=
  let needsDecode := ((pathExtension path).map (· == "dat")).getD false
  if needsDecode then
    match decode contents with
    | .error error => .error (.DecodeError error)
    | .ok decodedBytes =>
      match utf8Decode decodedBytes with
      | some s => .ok s
      | none => .error .DecodedDataInvalidUtf8
  else
    match utf8Decode contents with
    | some s => .ok s
    | none => .error (.FileOpenError path)

/-- Rust `TryFrom<Pair> for ObjectData` (`object_data.rs` lines 57–78): build
`Header` then `Frames` from the `Object` node's children. -/
def tryFromPair (pair : Pair) : Except Error ObjectData :=
  ObjectDataParser.parseAsType ObjectData.default pair .Object
    [fun objectData headerPair =>
      (Header.tryFrom headerPair).map fun header =>
        { objectData with header := header },
     fun objectData framesPair =>
      (Frames.tryFrom framesPair).map fun frames =>
        { objectData with frames := frames }]

/-- Rust `TryFrom<&str> for ObjectData` (`object_data.rs` lines 80–100), modelled
over the token stream the external pest grammar produced for the input: take
the first pair (else `ObjectDataExpected`), convert it, and report any
remaining pairs as `ObjectDataSurplus` carrying the parsed value. -/
def tryFromPairs (objectDataPairs : List Pair) : Except Error ObjectData :=
  match objectDataPairs with
  | [] => .error .ObjectDataExpected
  | pair :: surplus =>
    match tryFromPair pair with
    | .error e => .error e
    | .ok objectData =>
      if surplus.isEmpty then .ok objectData
      else .error (.ObjectDataSurplus objectData surplus)

end ObjectData

/-! ## Helper lemmas about the driver -/

/-- Inversion for `Except.map` returning `ok`. -/
theorem except_map_ok {α β : Type} {r : Except Error α} {g : α → β} {b : β}
    (h : r.map g = .ok b) : ∃ a, r = .ok a ∧ b = g a := by
  cases r with
  | ok a => exact ⟨a, rfl, by simpa [Except.map] using h.symm⟩
  | error e => simp [Except.map] at h

/-- Inversion for `parse_value` returning `ok`: the sub-rule function was run
on some value pair. -/
theorem parseValue_ok {B : Type} {b : B} {tagPair : Pair} {fn : SubRuleFn B}
    {b' : B} (h : ObjectDataParser.parseValue b tagPair fn = .ok b') :
    ∃ vp, fn b vp = .ok b' := by
  unfold ObjectDataParser.parseValue at h
  split at h
  · exact ⟨_, h⟩
  · cases h

/-- Inversion for `parse_as_type` with a single sub-rule function returning
`ok`: either the node had no children (builder unchanged) or the function was
run on the first child. -/
theorem parseAsType_single_ok {B : Type} {b : B} {p : Pair} {r : Rule}
    {fn : SubRuleFn B} {b' : B}
    (h : ObjectDataParser.parseAsType b p r [fn] = .ok b') :
    b' = b ∨ ∃ c ∈ p.children, fn b c = .ok b' := by
  unfold ObjectDataParser.parseAsType at h
  split at h
  · cases hc : p.children with
    | nil =>
      rw [hc] at h
      unfold zipTryFold at h
      cases h
      exact .inl rfl
    | cons c cs =>
      rw [hc] at h
      unfold zipTryFold at h
      cases hfb : fn b c with
      | ok bm =>
        rw [hfb] at h
        right
        refine ⟨c, by simp [hc], ?_⟩
        cases cs <;> (unfold zipTryFold at h; cases h; exact hfb)
      | error e =>
        rw [hfb] at h
        cases h
  · cases h

/-- A builder predicate `P` survives `zipTryFold` when every sub-rule function
preserves it on pairs satisfying `Q`. -/
theorem zipTryFold_preserve {B : Type} (P : B → Prop) (Q : Pair → Prop) :
    ∀ (ps : List Pair) (fns : List (SubRuleFn B)),
      (∀ f ∈ fns, ∀ b p b', Q p → f b p = .ok b' → P b → P b') →
      (∀ p ∈ ps, Q p) →
      ∀ b b', zipTryFold b ps fns = .ok b' → P b → P b' := by
  intro ps
  induction ps with
  | nil =>
    intro fns _ _ b b' h hP
    cases fns <;> (unfold zipTryFold at h; cases h; exact hP)
  | cons p ps ih =>
    intro fns hf hQ b b' h hP
    cases fns with
    | nil =>
      unfold zipTryFold at h
      cases h
      exact hP
    | cons f fs =>
      unfold zipTryFold at h
      cases hfb : f b p with
      | ok bm =>
        rw [hfb] at h
        exact ih fs (fun g hg => hf g (List.mem_cons_of_mem _ hg))
          (fun q hq => hQ q (List.mem_cons_of_mem _ hq)) bm b' h
          (hf f (List.mem_cons_self _ _) b p bm (hQ p (List.mem_cons_self _ _))
            hfb hP)
      | error e =>
        rw [hfb] at h
        cases h

/-- A builder predicate `P` survives `parse_as_type` when every sub-rule
function preserves it on pairs satisfying `Q` and all children satisfy `Q`. -/
theorem parseAsType_preserve {B : Type} (P : B → Prop) (Q : Pair → Prop)
    {b : B} {pair : Pair} {r : Rule} {fns : List (SubRuleFn B)} {b' : B}
    (hf : ∀ f ∈ fns, ∀ b p b', Q p → f b p = .ok b' → P b → P b')
    (hQ : ∀ p ∈ pair.children, Q p)
    (h : ObjectDataParser.parseAsType b pair r fns = .ok b') : P b → P b' := by
  unfold ObjectDataParser.parseAsType at h
  split at h
  · exact zipTryFold_preserve P Q pair.children fns hf hQ b b' h
  · cases h

/-- A builder predicate `P` survives `tryFold f` when `f` preserves it on
pairs satisfying `Q`. -/
theorem tryFold_preserve {B : Type} (P : B → Prop) (Q : Pair → Prop)
    {f : B → Pair → Except Error B}
    (hf : ∀ b p b', Q p → f b p = .ok b' → P b → P b') :
    ∀ (ps : List Pair), (∀ p ∈ ps, Q p) →
      ∀ b b', tryFold f b ps = .ok b' → P b → P b' := by
  intro ps
  induction ps with
  | nil =>
    intro _ b b' h hP
    unfold tryFold at h
    cases h
    exact hP
  | cons p ps ih =>
    intro hQ b b' h hP
    unfold tryFold at h
    cases hfb : f b p with
    | ok bm =>
      rw [hfb] at h
      exact ih (fun q hq => hQ q (List.mem_cons_of_mem _ hq)) bm b' h
        (hf b p bm (hQ p (List.mem_cons_self _ _)) hfb hP)
    | error e =>
      rw [hfb] at h
      cases h

/-! ## Claim theorems -/

/-- C3: for every integer `n` obtained by the `isize` parse of the input text,
`BdyKind` parsing maps `1000..=1999` to `Hostage` with freed frame `n - 1000`,
`-1999..=-1000` to `Hostage` with freed frame `n + 1000` (the sign carried
into the signed frame-number-next), `0` to `Normal`, and rejects every other
integer with an invalid-value error. -/
theorem bdyKind_fromStr_coded_range (s : String) (n : Int)
    (hp : parseIsize s = some n) :
    ((1000 ≤ n ∧ n ≤ 1999) → BdyKind.fromStr s = .ok (.Hostage (n - 1000)))
    ∧ ((-1999 ≤ n ∧ n ≤ -1000) → BdyKind.fromStr s = .ok (.Hostage (n + 1000)))
    ∧ (n = 0 → BdyKind.fromStr s = .ok .Normal)
    ∧ (¬((1000 ≤ n ∧ n ≤ 1999) ∨ (-1999 ≤ n ∧ n ≤ -1000) ∨ n = 0) →
        BdyKind.fromStr s = .error (.InvalidValue n)) := by
  have hs : BdyKind.fromStr s = BdyKind.fromValue n := by
    unfold BdyKind.fromStr
    rw [hp]
  rw [hs]
  unfold BdyKind.fromValue BdyKind.fromFrameNumber
  refine ⟨fun h => ?_, fun h => ?_, fun h => ?_, fun h => ?_⟩ <;>
    split_ifs <;> first | rfl | omega

/-- C3 witness: concrete instances of the four range cases. -/
theorem bdyKind_fromStr_coded_range_witness :
    parseIsize "1050" = some 1050
    ∧ BdyKind.fromStr "1050" = .ok (.Hostage 50)
    ∧ BdyKind.fromStr "-1500" = .ok (.Hostage (-500))
    ∧ BdyKind.fromStr "0" = .ok .Normal
    ∧ BdyKind.fromStr "500" = .error (.InvalidValue 500)
    ∧ BdyKind.fromStr "2000" = .error (.InvalidValue 2000) := by
  have h1050 : parseIsize "1050" = some 1050 := by decide
  refine ⟨h1050, ?_, ?_, ?_, ?_, ?_⟩
  · have h := (bdyKind_fromStr_coded_range "1050" 1050 h1050).1 (by omega)
    simpa using h
  · have h := (bdyKind_fromStr_coded_range "-1500" (-1500) (by decide)).2.1
      (by omega)
    simpa using h
  · exact (bdyKind_fromStr_coded_range "0" 0 (by decide)).2.2.1 rfl
  · exact (bdyKind_fromStr_coded_range "500" 500 (by decide)).2.2.2 (by omega)
  · exact (bdyKind_fromStr_coded_range "2000" 2000 (by decide)).2.2.2 (by omega)

/-- C2 counterexample: `parse_as_type` zips children with sub-parsers, and
`zip` stops at the shorter list — with zero children and one sub-parser the
call succeeds with the unchanged accumulator instead of returning a "missing
expected node" error (no such error is produced, even with an always-failing
sub-parser). -/
theorem parse_as_type_missing_children_no_error :
    ObjectDataParser.parseAsType (0 : Nat) (.mk .Frames "" []) .Frames
      [fun _ _ => .error .ObjectDataExpected] = .ok 0 := rfl

/-- The zipped fold decomposes at a positionally aligned split: fold the
prefix first, then (on success) continue with the remaining children and
sub-rule functions. -/
theorem zipTryFold_append {B : Type} (cs₁ : List Pair)
    (fs₁ : List (SubRuleFn B)) (h : cs₁.length = fs₁.length) (cs₂ : List Pair)
    (fs₂ : List (SubRuleFn B)) :
    ∀ b, zipTryFold b (cs₁ ++ cs₂) (fs₁ ++ fs₂)
      = match zipTryFold b cs₁ fs₁ with
        | .ok b₁ => zipTryFold b₁ cs₂ fs₂
        | .error e => .error e := by
  induction cs₁ generalizing fs₁ with
  | nil =>
    intro b
    have hf : fs₁ = [] := by
      cases fs₁ with
      | nil => rfl
      | cons f fs => simp at h
    subst hf
    rfl
  | cons c cs ih =>
    intro b
    cases fs₁ with
    | nil => simp at h
    | cons f fs =>
      simp only [List.cons_append]
      cases hfb : f b c with
      | ok b₁ =>
        have hz2 : zipTryFold b (c :: (cs ++ cs₂)) (f :: (fs ++ fs₂))
            = zipTryFold b₁ (cs ++ cs₂) (fs ++ fs₂) := by
          show (match f b c with
                | .ok b' => zipTryFold b' (cs ++ cs₂) (fs ++ fs₂)
                | .error e => .error e) = _
          rw [hfb]
        have hz : zipTryFold b (c :: cs) (f :: fs) = zipTryFold b₁ cs fs := by
          show (match f b c with
                | .ok b' => zipTryFold b' cs fs
                | .error e => .error e) = _
          rw [hfb]
        rw [hz2, ih fs (by simpa using h) b₁, hz]
      | error e =>
        have hz2 : zipTryFold b (c :: (cs ++ cs₂)) (f :: (fs ++ fs₂))
            = .error e := by
          show (match f b c with
                | .ok b' => zipTryFold b' (cs ++ cs₂) (fs ++ fs₂)
                | .error e => .error e) = _
          rw [hfb]
        have hz : zipTryFold b (c :: cs) (f :: fs) = .error e := by
          show (match f b c with
                | .ok b' => zipTryFold b' cs fs
                | .error e => .error e) = _
          rw [hfb]
        rw [hz2, hz]

/-- C2 (amended): `parse_as_type` errors on a node-kind mismatch; when the
earlier sub-parsers succeed and the sub-parser at any position fails on its
child, that first failing sub-parser's error is returned; and when the node
has fewer children than sub-parsers, the excess sub-parsers are silently
skipped (`zip` truncation) and the call succeeds with the accumulator built
from the children that were present. -/
theorem parse_as_type_contract {B : Type} (b : B) (pair : Pair) (r : Rule)
    (fns : List (SubRuleFn B)) :
    (pair.rule ≠ r →
      ObjectDataParser.parseAsType b pair r fns =
        .error (.GrammarSingle r (some pair)))
    ∧ (∀ cs₁ c cs₂ fs₁ f fs₂ b₁ e, pair.rule = r →
        pair.children = cs₁ ++ c :: cs₂ → fns = fs₁ ++ f :: fs₂ →
        cs₁.length = fs₁.length →
        zipTryFold b cs₁ fs₁ = .ok b₁ →
        f b₁ c = .error e →
        ObjectDataParser.parseAsType b pair r fns = .error e)
    ∧ (∀ fs₁ fs₂ b', pair.rule = r →
        fns = fs₁ ++ fs₂ →
        pair.children.length = fs₁.length →
        zipTryFold b pair.children fs₁ = .ok b' →
        ObjectDataParser.parseAsType b pair r fns = .ok b') := by
  refine ⟨fun h => ?_,
    fun cs₁ c cs₂ fs₁ f fs₂ b₁ e hr hc hf hlen hpre hfail => ?_,
    fun fs₁ fs₂ b' hr hf hlen hpre => ?_⟩
  · unfold ObjectDataParser.parseAsType
    simp [h]
  · unfold ObjectDataParser.parseAsType
    rw [hc, hf]
    simp only [hr, if_true, if_pos]
    rw [zipTryFold_append cs₁ fs₁ hlen (c :: cs₂) (f :: fs₂) b, hpre]
    show (match f b₁ c with
          | .ok b' => zipTryFold b' cs₂ fs₂
          | .error e => .error e) = _
    rw [hfail]
  · unfold ObjectDataParser.parseAsType
    rw [hf]
    simp only [hr, if_true, if_pos]
    have happ := zipTryFold_append pair.children fs₁ hlen [] fs₂ b
    rw [List.append_nil] at happ
    rw [happ, hpre]
    cases fs₂ <;> rfl

/-- C2 witness: the mismatch case; a failure at the second sub-parser
position after the first succeeds; and a node with one child but three
sub-parsers succeeding with the accumulator the first sub-parser built. -/
theorem parse_as_type_contract_witness :
    ObjectDataParser.parseAsType (0 : Nat) (.mk .Object "" []) .Frames []
      = .error (.GrammarSingle .Frames (some (.mk .Object "" [])))
    ∧ ObjectDataParser.parseAsType (0 : Nat)
        (.mk .Frames "" [.mk .Object "a" [], .mk .Object "b" []]) .Frames
        [fun n _ => .ok (n + 1), fun _ _ => .error .ObjectDataExpected]
      = .error .ObjectDataExpected
    ∧ ObjectDataParser.parseAsType (0 : Nat)
        (.mk .Frames "" [.mk .Object "a" []]) .Frames
        [fun n _ => .ok (n + 1), fun _ _ => .error .ObjectDataExpected,
         fun _ _ => .error .ObjectDataExpected]
      = .ok 1 := by
  refine ⟨?_, ?_, ?_⟩
  · exact (parse_as_type_contract 0 (.mk .Object "" []) .Frames []).1
      (by decide)
  · exact (parse_as_type_contract 0
      (.mk .Frames "" [.mk .Object "a" [], .mk .Object "b" []]) .Frames
      [fun n _ => .ok (n + 1), fun _ _ => .error .ObjectDataExpected]).2.1
      [.mk .Object "a" []] (.mk .Object "b" []) [] [fun n _ => .ok (n + 1)]
      (fun _ _ => .error .ObjectDataExpected) [] 1 .ObjectDataExpected
      rfl rfl rfl rfl rfl rfl
  · exact (parse_as_type_contract 0 (.mk .Frames "" [.mk .Object "a" []])
      .Frames
      [fun n _ => .ok (n + 1), fun _ _ => .error .ObjectDataExpected,
       fun _ _ => .error .ObjectDataExpected]).2.2
      [fun n _ => .ok (n + 1)]
      [fun _ _ => .error .ObjectDataExpected,
       fun _ _ => .error .ObjectDataExpected] 1 rfl rfl rfl rfl

/-- C8 counterexample: parsing the facing value `10` yields one object always
facing right, not the claim's digit law (low bit `0` would mean "same
direction as parent" with repeat count `1`). -/
theorem o_point_facing_ten_not_digit_law :
    OPointFacing.fromStr "10" = .ok { count := 1, direction := .Right }
    ∧ ({ count := 1, direction := .Right } : OPointFacing)
        ≠ { count := 1, direction := .ParentSame } :=
  ⟨rfl, by decide⟩

/-- C8 (amended): for every facing value parsed as a `u32`, the result drops
the last decimal digit for the repeat count and uses the low bit for the
direction relative to the parent, except for the special cases `0` (one
object, same facing), `1` (one object, opposite facing) and `10` (one object,
always facing right). -/
theorem o_point_facing_fromStr_decode (s : String) (n : Nat)
    (hp : parseU32 s = some n) :
    OPointFacing.fromStr s =
      .ok
        (if n = 0 then { count := 1, direction := .ParentSame }
         else if n = 1 then { count := 1, direction := .ParentOpposite }
         else if n = 10 then { count := 1, direction := .Right }
         else
           { count := n / 10
             direction := if n % 2 = 0 then .ParentSame else .ParentOpposite }) := by
  unfold OPointFacing.fromStr
  rw [hp]
  simp only [Nat.and_one_is_mod]
  split_ifs <;> rfl

/-- C8 witness: the general branch at the concrete value `21` (two objects,
opposite facing). -/
theorem o_point_facing_fromStr_decode_witness :
    parseU32 "21" = some 21
    ∧ OPointFacing.fromStr "21"
        = .ok { count := 2, direction := .ParentOpposite } := by
  have hp : parseU32 "21" = some 21 := by decide
  refine ⟨hp, ?_⟩
  have h := o_point_facing_fromStr_decode "21" 21 hp
  simpa using h

/-! ## Concrete sample syntax trees used by witnesses and counterexamples -/

/-- A `FrameTag` node wrapping a specific tag node with its value child. -/
def sampleFrameTag (r : Rule) (v : String) : Pair :=
  .mk .FrameTag v [.mk r v [.mk r v []]]

/-- A tag node (e.g. a `BdyTag`) wrapping a specific tag with its value. -/
def sampleTag (wrapper r : Rule) (v : String) : Pair :=
  .mk wrapper v [.mk r v [.mk r v []]]

/-- The embedded `bdy: kind: 0 x: 0 y: 0 w: 30 h: 60` element node of the
spec's frame scenario. -/
def sampleElementBdy : Pair :=
  .mk .Element "bdy"
    [.mk .Bdy "bdy"
      [.mk .Bdy ""
        [sampleTag .BdyTag .TagKind "0", sampleTag .BdyTag .TagX "0",
         sampleTag .BdyTag .TagY "0", sampleTag .BdyTag .TagW "30",
         sampleTag .BdyTag .TagH "60"]]]

/-- The eight frame body tags that set the builder fields without defaults. -/
def frameBodyTags : List Pair :=
  [sampleFrameTag .TagCenterX "39", sampleFrameTag .TagCenterY "79",
   sampleFrameTag .TagDVx "0", sampleFrameTag .TagDVy "0",
   sampleFrameTag .TagDVz "0", sampleFrameTag .TagNext "999",
   sampleFrameTag .TagPic "1", sampleFrameTag .TagState "0"]

/-- A `Frame` node with number `n`, name `Stand`, the mandatory body tags and
`extra` further body children. -/
def mkFramePair (n : String) (extra : List Pair) : Pair :=
  .mk .Frame n
    [.mk .FrameNumber n [.mk .FrameNumber n []],
     .mk .FrameName "Stand" [.mk .FrameName "Stand" []],
     .mk .FrameData "" (frameBodyTags ++ extra)]

/-- The `Frame` value that `mkFramePair n extra` parses to (for `extra`
children that set no builder field). -/
def mkFrameValue (n : Nat) (wait : Wait) : Frame :=
  { number := n, name := "Stand", centerX := 39, centerY := 79, dVx := 0
    dVy := 0, dVz := 0, hitA := 0, hitD := 0, hitDa := 0, hitDj := 0
    hitFa := 0, hitFj := 0, hitJ := 0, hitJa := 0, hitUa := 0, hitUj := 0
    mp := 0, nextFrame := 999, pic := 1, sound := none, state := ⟨0⟩
    wait := wait }

/-- C5: after a successful single-object parse, remaining token-stream pairs
are reported as the distinct `ObjectDataSurplus` error carrying both the
parsed `ObjectData` and the unconsumed pairs; with no remaining pairs the
`ObjectData` is returned directly. -/
theorem object_data_surplus_contract (p : Pair) (rest : List Pair)
    (od : ObjectData) (hok : ObjectData.tryFromPair p = .ok od) :
    (rest = [] → ObjectData.tryFromPairs (p :: rest) = .ok od)
    ∧ (rest ≠ [] →
        ObjectData.tryFromPairs (p :: rest)
          = .error (.ObjectDataSurplus od rest)) := by
  simp only [ObjectData.tryFromPairs]
  rw [hok]
  constructor
  · intro h
    subst h
    rfl
  · intro h
    have hne : rest.isEmpty = false := by
      simpa [List.isEmpty_iff] using h
    simp [hne]

/-- C5 witness: an `Object` node with no children parses to
`ObjectData::default()`; alone it is returned directly, with a trailing pair
the surplus error carries both the value and the surplus. -/
theorem object_data_surplus_contract_witness :
    ObjectData.tryFromPair (.mk .Object "" []) = .ok ObjectData.default
    ∧ ObjectData.tryFromPairs [.mk .Object "" []] = .ok ObjectData.default
    ∧ ObjectData.tryFromPairs [.mk .Object "" [], .mk .Frames "" []]
        = .error (.ObjectDataSurplus ObjectData.default [.mk .Frames "" []]) := by
  have hok : ObjectData.tryFromPair (.mk .Object "" []) = .ok ObjectData.default :=
    rfl
  exact ⟨hok, (object_data_surplus_contract _ [] _ hok).1 rfl,
    (object_data_surplus_contract _ [.mk .Frames "" []] _ hok).2 (by simp)⟩

/-- C6: opening a file whose path extension is `dat` feeds the bytes to the
external codec and UTF-8-decodes the result, surfacing invalid UTF-8 after a
successful decode as the distinct `DecodedDataInvalidUtf8` error and a codec
failure as `DecodeError`; for any other extension the codec is never invoked
(the result does not depend on it) and the bytes are read as plain UTF-8
text. -/
theorem open_codec_dispatch
    (decode decode' : List Nat → Except DecodeError (List Nat))
    (path : String) (contents : List Nat) :
    (pathExtension path = some "dat" →
      (∀ bytes, decode contents = .ok bytes →
        (∀ s, utf8Decode bytes = some s →
            ObjectData.openData decode path contents = .ok s)
        ∧ (utf8Decode bytes = none →
            ObjectData.openData decode path contents
              = .error .DecodedDataInvalidUtf8))
      ∧ (∀ e, decode contents = .error e →
          ObjectData.openData decode path contents = .error (.DecodeError e)))
    ∧ (pathExtension path ≠ some "dat" →
        ObjectData.openData decode path contents
          = ObjectData.openData decode' path contents
        ∧ (∀ s, utf8Decode contents = some s →
            ObjectData.openData decode path contents = .ok s)) := by
  constructor
  · intro hext
    have hb : ObjectData.openData decode path contents =
        match decode contents with
        | .error error => .error (.DecodeError error)
        | .ok decodedBytes =>
          match utf8Decode decodedBytes with
          | some s => .ok s
          | none => .error .DecodedDataInvalidUtf8 := by
      unfold ObjectData.openData
      rw [hext]
      simp
    constructor
    · intro bytes hbytes
      rw [hb, hbytes]
      constructor
      · intro s hs
        simp [hs]
      · intro hs
        simp [hs]
    · intro e he
      rw [hb, he]
  · intro hext
    have hb : ((pathExtension path).map (· == "dat")).getD false = false := by
      cases hpe : pathExtension path with
      | none => rfl
      | some ext =>
        have : ext ≠ "dat" := fun h => hext (by rw [hpe, h])
        simpa using this
    have hplain : ∀ d : List Nat → Except DecodeError (List Nat),
        ObjectData.openData d path contents =
          match utf8Decode contents with
          | some s => .ok s
          | none => .error (.FileOpenError path) := by
      intro d
      unfold ObjectData.openData
      rw [hb]
      simp
    constructor
    · rw [hplain decode, hplain decode']
    · intro s hs
      rw [hplain decode, hs]

/-- C6 witness: `a.dat` routes through the codec (identity here) and then
UTF-8; a corrupting codec surfaces the invalid-UTF-8 error; `a.txt` reads the
bytes directly with the codec never consulted. -/
theorem open_codec_dispatch_witness :
    ObjectData.openData (fun bs => .ok bs) "a.dat" [72, 105] = .ok "Hi"
    ∧ ObjectData.openData (fun _ => .ok [0xFF]) "a.dat" [72, 105]
        = .error .DecodedDataInvalidUtf8
    ∧ ObjectData.openData (fun _ => .error ⟨"bad"⟩) "a.dat" [72, 105]
        = .error (.DecodeError ⟨"bad"⟩)
    ∧ ObjectData.openData (fun _ => .error ⟨"bad"⟩) "a.txt" [72, 105]
        = ObjectData.openData (fun bs => .ok bs) "a.txt" [72, 105]
    ∧ ObjectData.openData (fun _ => .error ⟨"bad"⟩) "a.txt" [72, 105]
        = .ok "Hi" := by
  refine ⟨?_, ?_, ?_, ?_, ?_⟩
  · exact (((open_codec_dispatch (fun bs => .ok bs) (fun bs => .ok bs) "a.dat"
      [72, 105]).1 (by decide)).1 [72, 105] rfl).1 "Hi" (by decide)
  · exact (((open_codec_dispatch (fun _ => .ok [0xFF]) (fun bs => .ok bs)
      "a.dat" [72, 105]).1 (by decide)).1 [0xFF] rfl).2 (by decide)
  · exact ((open_codec_dispatch (fun _ => .error ⟨"bad"⟩) (fun bs => .ok bs)
      "a.dat" [72, 105]).1 (by decide)).2 ⟨"bad"⟩ rfl
  · exact ((open_codec_dispatch (fun _ => .error ⟨"bad"⟩) (fun bs => .ok bs)
      "a.txt" [72, 105]).2 (by decide)).1
  · exact ((open_codec_dispatch (fun _ => .error ⟨"bad"⟩) (fun bs => .ok bs)
      "a.txt" [72, 105]).2 (by decide)).2 "Hi" (by decide)

/-- Rust `Element::parse_element` builds `some` element only from a `Bdy`, `BPoint`
or `WPoint` child. -/
theorem parseElement_some_rules (c : Pair) (x : Element)
    (h : Element.parseElement none c = .ok (some x)) :
    c.rule = .Bdy ∨ c.rule = .BPoint ∨ c.rule = .WPoint := by
  unfold Element.parseElement at h
  split at h
  · exact .inl (by assumption)
  · exact .inr (.inl (by assumption))
  · exact .inr (.inr (by assumption))
  · simp at h
  · simp at h
  · simp at h
  · cases h

/-- C10: for an `Element` node with a single inner child of kind `CPoint`,
`Itr` or `OPoint`, the dispatcher leaves the accumulator unchanged (these
three variants are commented out in this snapshot) and the wrapper reports the
`ElementBuildNone` error; conversely `Element::try_from` returns `Ok` only
when the inner child is a `Bdy`, `BPoint` or `WPoint`. -/
theorem element_tryFrom_dispatch (pair c : Pair) (hr : pair.rule = .Element)
    (hc : pair.children = [c]) :
    ((c.rule = .CPoint ∨ c.rule = .Itr ∨ c.rule = .OPoint) →
      Element.tryFrom pair = .error (.ElementBuildNone pair))
    ∧ (∀ e, Element.tryFrom pair = .ok e →
        c.rule = .Bdy ∨ c.rule = .BPoint ∨ c.rule = .WPoint) := by
  have hstep : ObjectDataParser.parseAsType (none : Option Element) pair
      .Element [Element.parseElement]
      = match Element.parseElement none c with
        | .ok el => .ok el
        | .error e => .error e := by
    unfold ObjectDataParser.parseAsType
    rw [hc]
    simp only [hr, if_pos]
    unfold zipTryFold
    cases Element.parseElement none c with
    | ok el => unfold zipTryFold; rfl
    | error e => rfl
  constructor
  · intro hck
    have hskip : Element.parseElement none c = .ok none := by
      unfold Element.parseElement
      rcases hck with h | h | h <;> rw [h]
    unfold Element.tryFrom
    rw [hstep, hskip]
  · intro e he
    unfold Element.tryFrom at he
    rw [hstep] at he
    cases hpe : Element.parseElement none c with
    | ok el =>
      rw [hpe] at he
      cases el with
      | some x => exact parseElement_some_rules c x hpe
      | none => simp at he
    | error e' =>
      rw [hpe] at he
      cases he

/-- C10 witness: a `CPoint` child yields `ElementBuildNone`, and the
`Ok`-direction applied to a node whose `Bdy` child parses to `Ok`. -/
theorem element_tryFrom_dispatch_witness :
    Element.tryFrom (.mk .Element "" [.mk .CPoint "" []])
      = .error (.ElementBuildNone (.mk .Element "" [.mk .CPoint "" []]))
    ∧ ((Pair.mk .Bdy "" []).rule = .Bdy ∨ (Pair.mk .Bdy "" []).rule = .BPoint
        ∨ (Pair.mk .Bdy "" []).rule = .WPoint) := by
  constructor
  · exact (element_tryFrom_dispatch (.mk .Element "" [.mk .CPoint "" []])
      (.mk .CPoint "" []) rfl rfl).1 (.inl rfl)
  · exact (element_tryFrom_dispatch (.mk .Element "" [.mk .Bdy "" []])
      (.mk .Bdy "" []) rfl rfl).2 (.Bdy Bdy.default) rfl

/-- C1 (code-bug evidence): `Frame::parse_data` ignores `Element` children
(the dispatch arm is a `TODO: implement` that returns the builder unchanged),
and this snapshot's `Frame` struct has no `elements` field at all — parsing
the spec's scenario frame with an embedded `bdy` element succeeds but the
resulting `Frame` carries no element data anywhere. -/
theorem frame_parse_ignores_element_nodes :
    (∀ (b : FrameBuilder) (p : Pair), p.rule = .Element →
      Frame.parseTagOrElement b p = .ok b)
    ∧ Frame.tryFrom
        (mkFramePair "0" [sampleFrameTag .TagWait "3", sampleElementBdy])
        = .ok (mkFrameValue 0 3) := by
  constructor
  · intro b p h
    unfold Frame.parseTagOrElement
    rw [h]
  · rfl

/-- C1 witness: the element-skipping arm at a concrete `Element` node. -/
theorem frame_parse_ignores_element_nodes_witness :
    Frame.parseTagOrElement FrameBuilder.default sampleElementBdy
      = .ok FrameBuilder.default :=
  frame_parse_ignores_element_nodes.1 FrameBuilder.default sampleElementBdy rfl

/-! ## Field-preservation lemmas for the defaulting claim -/

/-- Inversion for `Except.bind` returning `ok`. -/
theorem except_bind_ok {α β : Type} {x : Except Error α} {f : α → Except Error β}
    {v : β} (h : x >>= f = .ok v) : ∃ a, x = .ok a ∧ f a = .ok v := by
  cases x with
  | ok a => exact ⟨a, rfl, h⟩
  | error e => exact absurd h (by simp [Bind.bind, Except.bind])

/-- A built `Frame`'s `wait` is the builder's `wait` with the default
applied. -/
theorem FrameBuilder.build_wait (b : FrameBuilder) (f : Frame)
    (h : b.build = .ok f) : f.wait = b.wait.getD WAIT_DEFAULT := by
  unfold FrameBuilder.build at h
  obtain ⟨number, _, h⟩ := except_bind_ok h
  obtain ⟨name, _, h⟩ := except_bind_ok h
  obtain ⟨centerX, _, h⟩ := except_bind_ok h
  obtain ⟨centerY, _, h⟩ := except_bind_ok h
  obtain ⟨dVx, _, h⟩ := except_bind_ok h
  obtain ⟨dVy, _, h⟩ := except_bind_ok h
  obtain ⟨dVz, _, h⟩ := except_bind_ok h
  obtain ⟨nextFrame, _, h⟩ := except_bind_ok h
  obtain ⟨pic, _, h⟩ := except_bind_ok h
  obtain ⟨state, _, h⟩ := except_bind_ok h
  cases h
  rfl

/-- Rust `Itr::parse_tag_value` changes `z_width` only on a `zwidth` tag. -/
theorem Itr.parseTagValue_zWidth (itr : Itr) (v : Pair) (itr' : Itr)
    (hv : v.rule ≠ .TagZWidth) (h : Itr.parseTagValue itr v = .ok itr') :
    itr'.zWidth = itr.zWidth := by
  unfold Itr.parseTagValue at h
  split at h
  all_goals
    first
      | exact absurd (by assumption) hv
      | (cases h; rfl)
      | (obtain ⟨vp, hvp⟩ := parseValue_ok h
         simp only [Itr.parseKindValue, Itr.parseXValue, Itr.parseYValue,
           Itr.parseWValue, Itr.parseHValue, Itr.parseDVxValue,
           Itr.parseDVyValue, Itr.parseARestValue, Itr.parseVRestValue,
           Itr.parseFallValue, Itr.parseBDefendValue, Itr.parseInjuryValue,
           Itr.parseEffectValue, Itr.parseCatchingActValue,
           Itr.parseCaughtActValue] at hvp
         first
           | (obtain ⟨a, _, rfl⟩ := except_map_ok hvp; rfl)
           | (split at hvp <;> cases hvp <;> rfl))

/-- Rust `Itr::parse_tag` preserves `z_width` when the wrapped tag is not
`zwidth`. -/
theorem Itr.parseTag_zWidth (itr : Itr) (t : Pair) (itr' : Itr)
    (ht : ∀ v ∈ t.children, v.rule ≠ .TagZWidth)
    (h : Itr.parseTag itr t = .ok itr') : itr'.zWidth = itr.zWidth := by
  unfold Itr.parseTag at h
  rcases parseAsType_single_ok h with rfl | ⟨c, hc, hfc⟩
  · rfl
  · exact Itr.parseTagValue_zWidth itr c itr' (ht c hc) hfc

/-- Rust `Itr::parse_tags` preserves `z_width` when no wrapped tag is `zwidth`. -/
theorem Itr.parseTags_zWidth (itr : Itr) (d : Pair) (itr' : Itr)
    (hd : ∀ t ∈ d.children, ∀ v ∈ t.children, v.rule ≠ .TagZWidth)
    (h : Itr.parseTags itr d = .ok itr') : itr'.zWidth = itr.zWidth := by
  unfold Itr.parseTags at h
  exact tryFold_preserve (P := fun i => i.zWidth = itr.zWidth)
    (Q := fun t => ∀ v ∈ t.children, v.rule ≠ .TagZWidth)
    (fun b p b' hQ hok hP => by
      show b'.zWidth = itr.zWidth
      rw [Itr.parseTag_zWidth b p b' hQ hok]
      exact hP)
    d.children hd itr itr' h rfl

/-- Rust `CPoint::parse_tag_value` changes the boolean-coded fields only on their
own tags. -/
theorem CPoint.parseTagValue_bools (cp : CPoint) (v : Pair) (cp' : CPoint)
    (hv : v.rule ≠ .TagCover ∧ v.rule ≠ .TagDirControl ∧ v.rule ≠ .TagHurtable)
    (h : CPoint.parseTagValue cp v = .ok cp') :
    (cp'.cover, cp'.dirControl, cp'.hurtable)
      = (cp.cover, cp.dirControl, cp.hurtable) := by
  unfold CPoint.parseTagValue at h
  split at h
  all_goals
    first
      | exact absurd (by assumption) hv.1
      | exact absurd (by assumption) hv.2.1
      | exact absurd (by assumption) hv.2.2
      | (cases h; rfl)
      | (obtain ⟨vp, hvp⟩ := parseValue_ok h
         simp only [CPoint.parseKindValue, CPoint.parseXValue,
           CPoint.parseYValue, CPoint.parseDecreaseValue,
           CPoint.parseInjuryValue, CPoint.parseAActionValue,
           CPoint.parseJActionValue, CPoint.parseVActionValue,
           CPoint.parseTActionValue, CPoint.parseThrowInjuryValue,
           CPoint.parseThrowVxValue, CPoint.parseThrowVyValue,
           CPoint.parseThrowVzValue, CPoint.parseFrontHurtActValue,
           CPoint.parseBackHurtActValue] at hvp
         first
           | (obtain ⟨a, _, rfl⟩ := except_map_ok hvp; rfl)
           | (split at hvp <;> cases hvp <;> rfl))

/-- Rust `CPoint::parse_tag` preserves the boolean-coded fields when the wrapped
tag is none of `cover`/`dircontrol`/`hurtable`. -/
theorem CPoint.parseTag_bools (cp : CPoint) (t : Pair) (cp' : CPoint)
    (ht : ∀ v ∈ t.children,
      v.rule ≠ .TagCover ∧ v.rule ≠ .TagDirControl ∧ v.rule ≠ .TagHurtable)
    (h : CPoint.parseTag cp t = .ok cp') :
    (cp'.cover, cp'.dirControl, cp'.hurtable)
      = (cp.cover, cp.dirControl, cp.hurtable) := by
  unfold CPoint.parseTag at h
  rcases parseAsType_single_ok h with rfl | ⟨c, hc, hfc⟩
  · rfl
  · exact CPoint.parseTagValue_bools cp c cp' (ht c hc) hfc

/-- Rust `CPoint::parse_tags` preserves the boolean-coded fields when no wrapped
tag is `cover`/`dircontrol`/`hurtable`. -/
theorem CPoint.parseTags_bools (cp : CPoint) (d : Pair) (cp' : CPoint)
    (hd : ∀ t ∈ d.children, ∀ v ∈ t.children,
      v.rule ≠ .TagCover ∧ v.rule ≠ .TagDirControl ∧ v.rule ≠ .TagHurtable)
    (h : CPoint.parseTags cp d = .ok cp') :
    (cp'.cover, cp'.dirControl, cp'.hurtable)
      = (cp.cover, cp.dirControl, cp.hurtable) := by
  unfold CPoint.parseTags at h
  exact tryFold_preserve
    (P := fun c => (c.cover, c.dirControl, c.hurtable)
      = (cp.cover, cp.dirControl, cp.hurtable))
    (Q := fun t => ∀ v ∈ t.children,
      v.rule ≠ .TagCover ∧ v.rule ≠ .TagDirControl ∧ v.rule ≠ .TagHurtable)
    (fun b p b' hQ hok hP => by
      show (b'.cover, b'.dirControl, b'.hurtable)
        = (cp.cover, cp.dirControl, cp.hurtable)
      rw [CPoint.parseTag_bools b p b' hQ hok]
      exact hP)
    d.children hd cp cp' h rfl

/-- Rust `Frame::parse_number` never touches the builder's `wait`. -/
theorem Frame.parseNumber_wait (b : FrameBuilder) (p : Pair)
    (b' : FrameBuilder) (h : Frame.parseNumber b p = .ok b') :
    b'.wait = b.wait := by
  unfold Frame.parseNumber at h
  rcases parseAsType_single_ok h with rfl | ⟨c, _, hfc⟩
  · rfl
  · unfold Frame.parseNumberValue at hfc
    obtain ⟨a, _, rfl⟩ := except_map_ok hfc
    rfl

/-- Rust `Frame::parse_name` never touches the builder's `wait`. -/
theorem Frame.parseName_wait (b : FrameBuilder) (p : Pair)
    (b' : FrameBuilder) (h : Frame.parseName b p = .ok b') :
    b'.wait = b.wait := by
  unfold Frame.parseName at h
  rcases parseAsType_single_ok h with rfl | ⟨c, _, hfc⟩
  · rfl
  · unfold Frame.parseNameValue at hfc
    cases hfc
    rfl

/-- Rust `Frame::parse_tag_value` changes the builder's `wait` only on a `wait`
tag. -/
theorem Frame.parseTagValue_wait (b : FrameBuilder) (v : Pair)
    (b' : FrameBuilder) (hv : v.rule ≠ .TagWait)
    (h : Frame.parseTagValue b v = .ok b') : b'.wait = b.wait := by
  unfold Frame.parseTagValue at h
  split at h
  all_goals
    first
      | exact absurd (by assumption) hv
      | (cases h; rfl)
      | (simp only [Frame.parseCenterX, Frame.parseCenterY, Frame.parseDVx,
           Frame.parseDVy, Frame.parseDVz, Frame.parseHitA, Frame.parseHitD,
           Frame.parseHitDa, Frame.parseHitDj, Frame.parseHitFa,
           Frame.parseHitFj, Frame.parseHitJ, Frame.parseHitJa,
           Frame.parseHitUa, Frame.parseHitUj, Frame.parseMp,
           Frame.parseNextFrame, Frame.parsePic, Frame.parseSound,
           Frame.parseState] at h
         rcases parseAsType_single_ok h with rfl | ⟨c, _, hfc⟩ <;>
           first
             | rfl
             | (simp only [Frame.parseCenterXValue, Frame.parseCenterYValue,
                  Frame.parseDVxValue, Frame.parseDVyValue, Frame.parseDVzValue,
                  Frame.parseHitAValue, Frame.parseHitDValue,
                  Frame.parseHitDaValue, Frame.parseHitDjValue,
                  Frame.parseHitFaValue, Frame.parseHitFjValue,
                  Frame.parseHitJValue, Frame.parseHitJaValue,
                  Frame.parseHitUaValue, Frame.parseHitUjValue,
                  Frame.parseMpValue, Frame.parseNextFrameValue,
                  Frame.parsePicValue, Frame.parseSoundValue,
                  Frame.parseStateValue] at hfc
                first
                  | (obtain ⟨a, _, rfl⟩ := except_map_ok hfc; rfl)
                  | (cases hfc; rfl)
                  | (split at hfc <;> cases hfc <;> rfl)))

/-- Rust `Frame::parse_tag` preserves the builder's `wait` when the wrapped tag is
not `wait`. -/
theorem Frame.parseTag_wait (b : FrameBuilder) (t : Pair) (b' : FrameBuilder)
    (ht : ∀ v ∈ t.children, v.rule ≠ .TagWait)
    (h : Frame.parseTag b t = .ok b') : b'.wait = b.wait := by
  unfold Frame.parseTag at h
  rcases parseAsType_single_ok h with rfl | ⟨c, hc, hfc⟩
  · rfl
  · exact Frame.parseTagValue_wait b c b' (ht c hc) hfc

/-- The `parse_data` fold body preserves the builder's `wait` when the child
holds no `wait` tag (in particular `Element` children are skipped). -/
theorem Frame.parseTagOrElement_wait (b : FrameBuilder) (t : Pair)
    (b' : FrameBuilder) (ht : ∀ v ∈ t.children, v.rule ≠ .TagWait)
    (h : Frame.parseTagOrElement b t = .ok b') : b'.wait = b.wait := by
  unfold Frame.parseTagOrElement at h
  split at h
  · exact Frame.parseTag_wait b t b' ht h
  · cases h
    rfl
  · cases h

/-- Rust `Frame::parse_data` preserves the builder's `wait` when no body child
holds a `wait` tag. -/
theorem Frame.parseData_wait (b : FrameBuilder) (d : Pair) (b' : FrameBuilder)
    (hd : ∀ t ∈ d.children, ∀ v ∈ t.children, v.rule ≠ .TagWait)
    (h : Frame.parseData b d = .ok b') : b'.wait = b.wait := by
  unfold Frame.parseData at h
  exact tryFold_preserve (P := fun x => x.wait = b.wait)
    (Q := fun t => ∀ v ∈ t.children, v.rule ≠ .TagWait)
    (fun x p x' hQ hok hP => by
      show x'.wait = b.wait
      rw [Frame.parseTagOrElement_wait x p x' hQ hok]
      exact hP)
    d.children hd b b' h rfl

/-- C7: omitted tags take the fixed defaults — an `Itr` parsed without a
`zwidth` tag has `z_width = 13`, a `Frame` parsed without a `wait` tag has
`wait = 1`, and a `CPoint` parsed without its boolean-coded `cover` /
`dircontrol` / `hurtable` tags has all three fields `false`. -/
theorem defaults_when_tags_omitted :
    (∀ (pair : Pair) (itr : Itr),
      (∀ c ∈ pair.children, ∀ t ∈ c.children, ∀ v ∈ t.children,
        v.rule ≠ .TagZWidth) →
      Itr.tryFrom pair = .ok itr → itr.zWidth = 13)
    ∧ (∀ (pair : Pair) (frame : Frame),
      (∀ c ∈ pair.children, ∀ t ∈ c.children, ∀ v ∈ t.children,
        v.rule ≠ .TagWait) →
      Frame.tryFrom pair = .ok frame → frame.wait = 1)
    ∧ (∀ (pair : Pair) (cPoint : CPoint),
      (∀ c ∈ pair.children, ∀ t ∈ c.children, ∀ v ∈ t.children,
        v.rule ≠ .TagCover ∧ v.rule ≠ .TagDirControl ∧ v.rule ≠ .TagHurtable) →
      CPoint.tryFrom pair = .ok cPoint →
      cPoint.cover = false ∧ cPoint.dirControl = false
        ∧ cPoint.hurtable = false) := by
  refine ⟨?_, ?_, ?_⟩
  · intro pair itr hyp h
    unfold Itr.tryFrom at h
    rcases parseAsType_single_ok h with rfl | ⟨c, hc, hfc⟩
    · rfl
    · exact Itr.parseTags_zWidth Itr.default c itr (hyp c hc) hfc
  · intro pair frame hyp h
    unfold Frame.tryFrom at h
    cases hpt : ObjectDataParser.parseAsType FrameBuilder.default pair .Frame
        [Frame.parseNumber, Frame.parseName, Frame.parseData] with
    | error e =>
      rw [hpt] at h
      cases h
    | ok builder =>
      rw [hpt] at h
      have hwait : builder.wait = none := by
        refine parseAsType_preserve (fun x => x.wait = none)
          (fun c => ∀ t ∈ c.children, ∀ v ∈ t.children, v.rule ≠ .TagWait)
          ?_ hyp hpt rfl
        intro f hf x p x' hQ hok hP
        show x'.wait = none
        simp only [List.mem_cons, List.mem_singleton] at hf
        rcases hf with rfl | rfl | rfl | hf
        · rw [Frame.parseNumber_wait x p x' hok]
          exact hP
        · rw [Frame.parseName_wait x p x' hok]
          exact hP
        · rw [Frame.parseData_wait x p x' hQ hok]
          exact hP
        · cases hf
      have := FrameBuilder.build_wait builder frame h
      rw [hwait] at this
      exact this
  · intro pair cPoint hyp h
    unfold CPoint.tryFrom at h
    rcases parseAsType_single_ok h with rfl | ⟨c, hc, hfc⟩
    · exact ⟨rfl, rfl, rfl⟩
    · have := CPoint.parseTags_bools CPoint.default c cPoint (hyp c hc) hfc
      simpa using this

/-- C7 witness: an `Itr` with no tags, the sample frame without a `wait` tag,
and a `CPoint` with no tags. -/
theorem defaults_when_tags_omitted_witness :
    Itr.tryFrom (.mk .Itr "" []) = .ok Itr.default
    ∧ (Itr.default).zWidth = 13
    ∧ Frame.tryFrom (mkFramePair "7" []) = .ok (mkFrameValue 7 1)
    ∧ (mkFrameValue 7 1).wait = 1
    ∧ CPoint.tryFrom (.mk .CPoint "" []) = .ok CPoint.default
    ∧ (CPoint.default.cover = false ∧ CPoint.default.dirControl = false
        ∧ CPoint.default.hurtable = false) := by
  have hi : Itr.tryFrom (.mk .Itr "" []) = .ok Itr.default := rfl
  have hf : Frame.tryFrom (mkFramePair "7" []) = .ok (mkFrameValue 7 1) := rfl
  have hc : CPoint.tryFrom (.mk .CPoint "" []) = .ok CPoint.default := rfl
  refine ⟨hi, ?_, hf, ?_, hc, ?_⟩
  · exact defaults_when_tags_omitted.1 _ _
      (by intro c hcc; simp [Pair.children] at hcc) hi
  · exact defaults_when_tags_omitted.2.1 _ _ (by decide) hf
  · exact defaults_when_tags_omitted.2.2 _ _
      (by intro c hcc; simp [Pair.children] at hcc) hc

/-! ## `Frames::validate` facts -/

/-- With pairwise-distinct frame numbers no duplicate exists and `validate`
returns the frames. -/
theorem Frames.validate_ok_of_nodup (framePairs : List Pair) (frames : Frames)
    (h : (frames.map Frame.number).Nodup) :
    Frames.validate framePairs frames = .ok frames := by
  have hdup : Frames.duplicateNumbers frames = [] := by
    unfold Frames.duplicateNumbers
    rw [List.filter_eq_nil_iff]
    intro d hd
    have := List.nodup_iff_count_le_one.mp h d
    simp only [decide_eq_true_eq]
    omega
  unfold Frames.validate
  rw [hdup]
  rfl

/-- With a duplicated frame number, `validate` fails with the least duplicated
number, and the error's pair list contains the pair of every frame carrying
that number. -/
theorem Frames.validate_error_of_dup (framePairs : List Pair) (frames : Frames)
    (hlen : framePairs.length = frames.length) (d : FrameNumber)
    (hd : 2 ≤ (frames.map Frame.number).count d) :
    Frames.validate framePairs frames =
      .error
        (.FrameNumberNonUnique ((Frames.duplicateNumbers frames).min?.getD 0)
          ((Frames.numberIndices frames
              ((Frames.duplicateNumbers frames).min?.getD 0)).filterMap
            framePairs.get?))
    ∧ 2 ≤ (frames.map Frame.number).count
        ((Frames.duplicateNumbers frames).min?.getD 0)
    ∧ (∀ i (hi : i < frames.length),
        (frames.get ⟨i, hi⟩).number
            = (Frames.duplicateNumbers frames).min?.getD 0 →
        ∃ hp : i < framePairs.length,
          framePairs.get ⟨i, hp⟩ ∈
            (Frames.numberIndices frames
                ((Frames.duplicateNumbers frames).min?.getD 0)).filterMap
              framePairs.get?) := by
  have hmem : d ∈ Frames.duplicateNumbers frames := by
    unfold Frames.duplicateNumbers
    rw [List.mem_filter]
    constructor
    · rw [← List.count_pos_iff]
      omega
    · simpa using hd
  obtain ⟨m, hm⟩ : ∃ m, (Frames.duplicateNumbers frames).min? = some m := by
    cases hmin : (Frames.duplicateNumbers frames).min? with
    | some m => exact ⟨m, rfl⟩
    | none =>
      rw [List.min?_eq_none_iff] at hmin
      rw [hmin] at hmem
      cases hmem
  have hgetD : (Frames.duplicateNumbers frames).min?.getD 0 = m := by
    rw [hm]
    rfl
  have hmmem : m ∈ Frames.duplicateNumbers frames :=
    List.min?_mem (fun a b => by rw [inf_eq_min]; exact min_choice a b) hm
  have hmcount : 2 ≤ (frames.map Frame.number).count m := by
    unfold Frames.duplicateNumbers at hmmem
    rw [List.mem_filter] at hmmem
    simpa using hmmem.2
  refine ⟨?_, hgetD ▸ hmcount, ?_⟩
  · rw [hgetD]
    unfold Frames.validate
    rw [hm]
  · intro i hi hnum
    have hp : i < framePairs.length := by omega
    refine ⟨hp, ?_⟩
    rw [List.mem_filterMap]
    refine ⟨i, ?_, ?_⟩
    · unfold Frames.numberIndices
      rw [List.mem_filter]
      refine ⟨List.mem_range.mpr hi, ?_⟩
      rw [hgetD] at hnum
      simp only [decide_eq_true_eq]
      rw [hgetD, List.get?_eq_get hi]
      simpa using hnum
    · exact List.get?_eq_get hp

/-- C4: a `Frames` collection with two or more frames sharing a frame number
fails validation with a `FrameNumberNonUnique` error naming a duplicated
number and carrying the pair of every frame with that number (not just the
first two); with all-distinct numbers validation succeeds. -/
theorem frames_validate_unique (framePairs : List Pair) (frames : Frames)
    (hlen : framePairs.length = frames.length) :
    ((∃ d, 2 ≤ (frames.map Frame.number).count d) →
      Frames.validate framePairs frames =
        .error
          (.FrameNumberNonUnique ((Frames.duplicateNumbers frames).min?.getD 0)
            ((Frames.numberIndices frames
                ((Frames.duplicateNumbers frames).min?.getD 0)).filterMap
              framePairs.get?))
      ∧ 2 ≤ (frames.map Frame.number).count
          ((Frames.duplicateNumbers frames).min?.getD 0)
      ∧ (∀ i (hi : i < frames.length),
          (frames.get ⟨i, hi⟩).number
              = (Frames.duplicateNumbers frames).min?.getD 0 →
          ∃ hp : i < framePairs.length,
            framePairs.get ⟨i, hp⟩ ∈
              (Frames.numberIndices frames
                  ((Frames.duplicateNumbers frames).min?.getD 0)).filterMap
                framePairs.get?))
    ∧ ((frames.map Frame.number).Nodup →
        Frames.validate framePairs frames = .ok frames) := by
  constructor
  · intro ⟨d, hd⟩
    exact Frames.validate_error_of_dup framePairs frames hlen d hd
  · intro h
    exact Frames.validate_ok_of_nodup framePairs frames h

/-- C4 witness: two frames numbered `5` fail with both pairs referenced; the
numbers `5` and `6` validate fine. -/
theorem frames_validate_unique_witness :
    Frames.validate [.mk .Frame "a" [], .mk .Frame "b" []]
        [mkFrameValue 5 1, mkFrameValue 5 3]
      = .error
          (.FrameNumberNonUnique 5 [.mk .Frame "a" [], .mk .Frame "b" []])
    ∧ Frames.validate [.mk .Frame "a" [], .mk .Frame "b" []]
        [mkFrameValue 5 1, mkFrameValue 6 1]
      = .ok [mkFrameValue 5 1, mkFrameValue 6 1] := by
  constructor
  · exact ((frames_validate_unique [.mk .Frame "a" [], .mk .Frame "b" []]
      [mkFrameValue 5 1, mkFrameValue 5 3] rfl).1 ⟨5, by decide⟩).1
  · exact (frames_validate_unique [.mk .Frame "a" [], .mk .Frame "b" []]
      [mkFrameValue 5 1, mkFrameValue 6 1] rfl).2 (by decide)

/-! ## The silent drop of failing frames -/

/-- The pure fold underlying `Frames::parse_frame` over a child list: keep
only the children that parse as a `Frame`, together with their pairs. -/
def Frames.collectFrames (acc : List Pair × Frames) (ps : List Pair) :
    List Pair × Frames :=
  ps.foldl
    (fun acc p =>
      match Frame.tryFrom p with
      | .ok frame => (acc.1 ++ [p], acc.2 ++ [frame])
      | .error _ => acc)
    acc

/-- Rust `parse_frame` never fails, so the `try_fold` over it is the plain fold. -/
theorem Frames.tryFold_parseFrame (ps : List Pair) :
    ∀ acc, tryFold Frames.parseFrame acc ps
      = .ok (Frames.collectFrames acc ps) := by
  induction ps with
  | nil => intro acc; rfl
  | cons p ps ih =>
    intro acc
    unfold tryFold Frames.parseFrame Frames.collectFrames
    cases hp : Frame.tryFrom p with
    | ok frame =>
      rw [List.foldl_cons]
      have := ih (acc.1 ++ [p], acc.2 ++ [frame])
      unfold Frames.collectFrames at this
      simpa [hp] using this
    | error e =>
      rw [List.foldl_cons]
      have := ih acc
      unfold Frames.collectFrames at this
      simpa [hp] using this

/-- C9 counterexample: a `Frames` node with a failing child frame does not
always return `Ok` — when the surviving frames collide on a frame number the
whole conversion fails with the duplicate-number error (while the failing
child's own error is still discarded). -/
theorem frames_failing_child_not_always_ok :
    Frame.tryFrom (.mk .Frame "x" []) = .error (.DataBuildFailed "number")
    ∧ Frames.tryFrom
        (.mk .Frames ""
          [.mk .Frame "x" [], mkFramePair "5" [], mkFramePair "5" []])
        = .error
            (.FrameNumberNonUnique 5 [mkFramePair "5" [], mkFramePair "5" []]) :=
  ⟨rfl, rfl⟩

/-- C9 (amended): a child frame that fails to parse is silently omitted and
its error discarded — removing such a child does not change the result at
all — and `Frames::try_from` returns `Ok` with exactly the successfully
parsed frames provided their frame numbers are pairwise distinct (otherwise
the duplicate-frame-number error is returned instead). -/
theorem frames_failing_children_dropped :
    (∀ (t : String) (xs ys : List Pair) (c : Pair) (e : Error),
      Frame.tryFrom c = .error e →
      Frames.tryFrom (.mk .Frames t (xs ++ c :: ys))
        = Frames.tryFrom (.mk .Frames t (xs ++ ys)))
    ∧ (∀ (t : String) (ps : List Pair),
      ((Frames.collectFrames ([], []) ps).2.map Frame.number).Nodup →
      Frames.tryFrom (.mk .Frames t ps)
        = .ok (Frames.collectFrames ([], []) ps).2) := by
  constructor
  · intro t xs ys c e hc
    have hcollect : ∀ acc, Frames.collectFrames acc (xs ++ c :: ys)
        = Frames.collectFrames acc (xs ++ ys) := by
      intro acc
      unfold Frames.collectFrames
      rw [List.foldl_append, List.foldl_append, List.foldl_cons, hc]
    unfold Frames.tryFrom
    simp only [Pair.rule, Pair.children, if_pos]
    rw [Frames.tryFold_parseFrame, Frames.tryFold_parseFrame, hcollect]
  · intro t ps hnodup
    unfold Frames.tryFrom
    simp only [Pair.rule, Pair.children, if_pos]
    rw [Frames.tryFold_parseFrame]
    exact Frames.validate_ok_of_nodup _ _ hnodup

/-- C9 witness: dropping the failing child leaves the result unchanged, and
with distinct numbers the surviving frame is returned. -/
theorem frames_failing_children_dropped_witness :
    Frames.tryFrom (.mk .Frames "" [.mk .Frame "x" [], mkFramePair "5" []])
      = Frames.tryFrom (.mk .Frames "" [mkFramePair "5" []])
    ∧ Frames.tryFrom (.mk .Frames "" [.mk .Frame "x" [], mkFramePair "5" []])
      = .ok [mkFrameValue 5 1] := by
  constructor
  · exact frames_failing_children_dropped.1 "" [] [mkFramePair "5" []]
      (.mk .Frame "x" []) (.DataBuildFailed "number") rfl
  · exact frames_failing_children_dropped.2 ""
      [.mk .Frame "x" [], mkFramePair "5" []] (by decide)

end Lf2
